import Mathlib

/-!
Shallow embedding of the EQ500X equatorial-mount driver
(src/libindi/drivers/telescope/eq500x.cpp).

C `double` arithmetic is modelled with `ℚ`, C integer arithmetic with `ℤ`
using truncating division (`Int.tdiv` / `Int.tmod`), which matches C's `/`
and `%` on possibly-negative operands.  C strings are modelled as lists of
byte values (`List ℤ`): the declination codec of the driver manipulates
characters as integers (`':' + n`, comparisons such as `degrees[1] < '0'`,
a `struct`-overlay of the reply buffer), so a byte-level model is the
faithful one.  `chr` injects a character literal as its byte value.

All call sites of the string codecs in the driver pass buffers of at least
10 bytes (`b[64]` for parsing, `bufRA[9]`/`bufDEC[10]`/`simEQ500X` fields
of 16 for formatting), so the `buf_length` guard clauses of the C code
never fire and are not modelled as extra parameters.  `sendCmd` returns
an error only on transport failure, which is outside the core and is
modelled as always succeeding.
-/

namespace EQ500X

/-- Pier side enumeration from INDI's Telescope class. -/
inductive TelescopePierSide
  | PIER_EAST
  | PIER_WEST
  | PIER_UNKNOWN
deriving DecidableEq, Repr

open TelescopePierSide

/-- Byte value of a character, to write C character constants. -/
def chr (c : Char) : ℤ := c.toNat

/-- Truncation toward zero of a rational, as C casts and `fmod` use. -/
def ratTrunc (q : ℚ) : ℤ := if 0 ≤ q then ⌊q⌋ else -⌊-q⌋

/-- C `fmod` on rationals: remainder with the sign of the dividend. -/
def ratFmod (x y : ℚ) : ℚ := x - y * ratTrunc (x / y)

/-- C `lround`: round to nearest, halfway cases away from zero. -/
def lround (q : ℚ) : ℤ := if 0 ≤ q then ⌊q + 1/2⌋ else -⌊-q + 1/2⌋

/-- eq500x.cpp line 64. -/
def ONEDEGREE : ℚ := 1

/-- eq500x.cpp line 65. -/
def ARCMINUTE : ℚ := ONEDEGREE / 60

/-- eq500x.cpp line 66. -/
def ARCSECOND : ℚ := ONEDEGREE / 3600

/-- eq500x.cpp line 69: minimum detectable movement in RA, in degrees. -/
def RA_GRANULARITY : ℚ := (lround ((15 * ARCSECOND) * 3600) : ℚ) / 3600

/-- eq500x.cpp line 70: minimum detectable movement in DEC, in degrees. -/
def DEC_GRANULARITY : ℚ := (lround ((1 * ARCSECOND) * 3600) : ℚ) / 3600

/-- eq500x.cpp line 74: number of polling loops before convergence fails. -/
def MAX_CONVERGENCE_LOOPS : ℤ := 144

/-- eq500x.cpp lines 79-84: one row of the `adjustments` table. -/
structure Adjustment where
  slew_rate : String
  epsilon : ℚ
  distance : ℚ
  polling_interval : ℕ
deriving DecidableEq, Repr

/-- eq500x.cpp lines 85-90: the five-tier slew-rate adjustment table. -/
def adjustments : Fin 5 → Adjustment :=
  ![⟨":RG#", 1 * ARCSECOND, (7/10) * ARCMINUTE, 100⟩,
    ⟨":RC#", (7/10) * ARCMINUTE, 10 * ARCMINUTE, 200⟩,
    ⟨":RM#", 10 * ARCMINUTE, 5 * ONEDEGREE, 500⟩,
    ⟨":RS#", 5 * ONEDEGREE, 10 * ONEDEGREE, 500⟩,
    ⟨":RS#", 10 * ONEDEGREE, 360 * ONEDEGREE, 1000⟩]

theorem adjustments_zero : adjustments 0 = ⟨":RG#", 1 * ARCSECOND, (7/10) * ARCMINUTE, 100⟩ := rfl

theorem adjustments_one : adjustments 1 = ⟨":RC#", (7/10) * ARCMINUTE, 10 * ARCMINUTE, 200⟩ := rfl

theorem adjustments_two : adjustments 2 = ⟨":RM#", 10 * ARCMINUTE, 5 * ONEDEGREE, 500⟩ := rfl

theorem adjustments_three : adjustments 3 = ⟨":RS#", 5 * ONEDEGREE, 10 * ONEDEGREE, 500⟩ := rfl

theorem adjustments_four : adjustments 4 = ⟨":RS#", 10 * ONEDEGREE, 360 * ONEDEGREE, 1000⟩ := rfl

/-!
## MechanicalPoint

`_RAm` (seconds of RA time) and `_DECm` (seconds of DEC arc) are the two
`long` tick counters of `EQ500X::MechanicalPoint`; the pier side is the
`_pierSide` member.  The setters and codecs below are per-field
translations of the member functions.
-/

/-- eq500x.cpp lines 699-703, `MechanicalPoint::RAm(double)`:
`_RAm = std::lround(std::fmod(value+24.0,24.0)*3600.0)`. -/
def RAm_set (value : ℚ) : ℤ := lround (ratFmod (value + 24) 24 * 3600)

/-- eq500x.cpp lines 705-710, `MechanicalPoint::DECm(double)`:
`_DECm = std::lround(std::fmod(value+256.0,256.0)*3600.0)`. -/
def DECm_set (value : ℚ) : ℤ := lround (ratFmod (value + 256) 256 * 3600)

/-- `printf "%02d"` of an integer as a byte list: two-digit zero padding
for 0..9, plain decimal otherwise, `-` prefix for negatives. -/
def fmt02 (n : ℤ) : List ℤ :=
  if n < 0 then chr '-' :: ((Nat.toDigits 10 n.natAbs).map fun c => (c.toNat : ℤ))
  else if n < 10 then chr '0' :: ((Nat.toDigits 10 n.natAbs).map fun c => (c.toNat : ℤ))
  else (Nat.toDigits 10 n.natAbs).map fun c => (c.toNat : ℤ)

/-- eq500x.cpp lines 712-723, `MechanicalPoint::toStringRA`:
format `"HH:MM:SS"`, adding 12 hours when the pier side is WEST. -/
def toStringRA (_RAm : ℤ) (_pierSide : TelescopePierSide) : List ℤ :=
  let hours : ℤ := ((if _pierSide = PIER_WEST then 12 else 0) + 24 + _RAm.tdiv 3600).tmod 24
  let minutes : ℤ := (_RAm.tdiv 60).tmod 60
  let seconds : ℤ := _RAm.tmod 60
  fmt02 hours ++ [chr ':'] ++ fmt02 minutes ++ [chr ':'] ++ fmt02 seconds

/-- whitespace test of `sscanf`/`atoi` (C `isspace`). -/
def isSpaceByte (b : ℤ) : Bool := decide (b = 32 ∨ (9 ≤ b ∧ b ≤ 13))

/-- One `%02d` conversion of `sscanf` (width 2): skip whitespace, then an
optional sign and digits, consuming at most two characters in total;
fails without at least one digit. -/
def scanInt2 (bs : List ℤ) : Option (ℤ × List ℤ) :=
  match bs.dropWhile (fun b => isSpaceByte b) with
  | [] => none
  | [b] => if 48 ≤ b ∧ b ≤ 57 then some (b - 48, []) else none
  | b :: c :: rest =>
    if 48 ≤ b ∧ b ≤ 57 then
      if 48 ≤ c ∧ c ≤ 57 then some (10 * (b - 48) + (c - 48), rest)
      else some (b - 48, c :: rest)
    else if (b = chr '+' ∨ b = chr '-') ∧ (48 ≤ c ∧ c ≤ 57) then
      some (if b = chr '-' then -(c - 48) else c - 48, rest)
    else none

/-- eq500x.cpp lines 725-745, `MechanicalPoint::parseStringRA`:
`sscanf(buf, "%02d:%02d:%02d", ...)` must produce three conversions, then
`_RAm = ((WEST ? -12*3600 : 0) + 24*3600 + (hours%24)*3600 + minutes*60
+ seconds) % (24*3600)`.  Returns the new `_RAm` on success, `none` on
the parse failure that leaves the point unchanged. -/
def parseStringRA (buf : List ℤ) (_pierSide : TelescopePierSide) : Option ℤ :=
  match scanInt2 buf with
  | none => none
  | some (hours, r1) =>
    match r1 with
    | [] => none
    | b :: r2 =>
      if b = chr ':' then
        match scanInt2 r2 with
        | none => none
        | some (minutes, r3) =>
          match r3 with
          | [] => none
          | c :: r4 =>
            if c = chr ':' then
              match scanInt2 r4 with
              | none => none
              | some (seconds, _) =>
                some (((if _pierSide = PIER_WEST then (-12) * 3600 else 0) + 24 * 3600 +
                        (hours.tmod 24) * 3600 + minutes * 60 + seconds).tmod (24 * 3600))
            else none
      else none

/-- eq500x.cpp lines 759-783: high digit of the DEC degrees field.
Values below 100 use `'0' + |degrees|/10`; the `switch` maps
tens-and-hundreds figures 10..25 to `':'..'I'`; anything else fails. -/
def decHighDigit (degrees : ℤ) : Option ℤ :=
  if -100 < degrees ∧ degrees < 100 then some (chr '0' + ((degrees.natAbs : ℤ)).tdiv 10)
  else if ((degrees.natAbs : ℤ)).tdiv 10 = 10 then some (chr ':')
  else if ((degrees.natAbs : ℤ)).tdiv 10 = 11 then some (chr ';')
  else if ((degrees.natAbs : ℤ)).tdiv 10 = 12 then some (chr '<')
  else if ((degrees.natAbs : ℤ)).tdiv 10 = 13 then some (chr '=')
  else if ((degrees.natAbs : ℤ)).tdiv 10 = 14 then some (chr '>')
  else if ((degrees.natAbs : ℤ)).tdiv 10 = 15 then some (chr '?')
  else if ((degrees.natAbs : ℤ)).tdiv 10 = 16 then some (chr '@')
  else if ((degrees.natAbs : ℤ)).tdiv 10 = 17 then some (chr 'A')
  else if ((degrees.natAbs : ℤ)).tdiv 10 = 18 then some (chr 'B')
  else if ((degrees.natAbs : ℤ)).tdiv 10 = 19 then some (chr 'C')
  else if ((degrees.natAbs : ℤ)).tdiv 10 = 20 then some (chr 'D')
  else if ((degrees.natAbs : ℤ)).tdiv 10 = 21 then some (chr 'E')
  else if ((degrees.natAbs : ℤ)).tdiv 10 = 22 then some (chr 'F')
  else if ((degrees.natAbs : ℤ)).tdiv 10 = 23 then some (chr 'G')
  else if ((degrees.natAbs : ℤ)).tdiv 10 = 24 then some (chr 'H')
  else if ((degrees.natAbs : ℤ)).tdiv 10 = 25 then some (chr 'I')
  else none

/-- eq500x.cpp lines 747-790, `MechanicalPoint::toStringDEC`: format
`"sHL:MM:SS"` where `value = (EAST ? 90*3600 - _DECm : _DECm - 90*3600)`,
`degrees = (value/3600) % 256`, and the degree tens live in the extended
`'0'..'I'` alphabet.  Returns `none` where the C code returns a null
pointer. -/
def toStringDEC (_DECm : ℤ) (_pierSide : TelescopePierSide) : Option (List ℤ) :=
  let value : ℤ := if _pierSide = PIER_EAST then 90 * 3600 - _DECm else _DECm - 90 * 3600
  let degrees : ℤ := (value.tdiv 3600).tmod 256
  let minutes : ℤ := (((value.natAbs : ℤ)).tdiv 60).tmod 60
  let seconds : ℤ := ((value.natAbs : ℤ)).tmod 60
  if degrees < -255 ∨ 255 < degrees then none
  else
    match decHighDigit degrees with
    | none => none
    | some hc =>
      some ([if 0 ≤ degrees then chr '+' else chr '-',
             hc,
             chr '0' + ((degrees.natAbs : ℤ)).tmod 10,
             chr ':'] ++ fmt02 minutes ++ [chr ':'] ++ fmt02 seconds)

/-- Digit-accumulation loop of C `atoi`. -/
def atoiDigits : List ℤ → ℤ → ℤ
  | [], acc => acc
  | b :: bs, acc => if 48 ≤ b ∧ b ≤ 57 then atoiDigits bs (acc * 10 + (b - 48)) else acc

/-- C `atoi`: skip whitespace, optional sign, digits until a non-digit. -/
def atoi (bs : List ℤ) : ℤ :=
  match bs.dropWhile (fun b => isSpaceByte b) with
  | [] => 0
  | b :: rest =>
    if b = chr '-' then -(atoiDigits rest 0)
    else if b = chr '+' then atoiDigits rest 0
    else atoiDigits (b :: rest) 0

/-- eq500x.cpp lines 818-837: the `switch` on `degrees[1]` that expands
the extended high digit into hundreds+tens, or stuffs `'0'` in front of a
plain decimal pair (the `default` case). -/
def decParseDegrees (d1 d2 : ℤ) : List ℤ :=
  if d1 = chr ':' then [chr '1', chr '0', d2]
  else if d1 = chr ';' then [chr '1', chr '1', d2]
  else if d1 = chr '<' then [chr '1', chr '2', d2]
  else if d1 = chr '=' then [chr '1', chr '3', d2]
  else if d1 = chr '>' then [chr '1', chr '4', d2]
  else if d1 = chr '?' then [chr '1', chr '5', d2]
  else if d1 = chr '@' then [chr '1', chr '6', d2]
  else if d1 = chr 'A' then [chr '1', chr '7', d2]
  else if d1 = chr 'B' then [chr '1', chr '8', d2]
  else if d1 = chr 'C' then [chr '1', chr '9', d2]
  else if d1 = chr 'D' then [chr '2', chr '0', d2]
  else if d1 = chr 'E' then [chr '2', chr '1', d2]
  else if d1 = chr 'F' then [chr '2', chr '2', d2]
  else if d1 = chr 'G' then [chr '2', chr '3', d2]
  else if d1 = chr 'H' then [chr '2', chr '4', d2]
  else if d1 = chr 'I' then [chr '2', chr '5', d2]
  else [chr '0', d1, d2]

/-- eq500x.cpp lines 792-850, `MechanicalPoint::parseStringDEC`: copy the
first 10 bytes (zero padded, as `strncpy` does), overlay the
`{degrees[4]; minutes[3]; seconds[3]}` struct, validate `degrees[1]`
against `'0'..'I'`, then
`_DECm = 90*3600 + orientation*sgn*(atoi(degrees)*3600 + atoi(minutes)*60
+ atoi(seconds))` with `orientation = (EAST ? -1 : +1)`.  Returns the new
`_DECm`, or `none` on the failure that leaves the point unchanged. -/
def parseStringDEC (buf : List ℤ) (_pierSide : TelescopePierSide) : Option ℤ :=
  let b : List ℤ := buf.take 10 ++ List.replicate (10 - min 10 buf.length) 0
  let d0 : ℤ := b.getD 0 0
  let d1 : ℤ := b.getD 1 0
  let d2 : ℤ := b.getD 2 0
  let m0 : ℤ := b.getD 4 0
  let m1 : ℤ := b.getD 5 0
  let s0 : ℤ := b.getD 7 0
  let s1 : ℤ := b.getD 8 0
  if d1 < chr '0' ∨ chr 'I' < d1 then none
  else
    let sgn : ℤ := if d0 = chr '-' then -1 else 1
    let orientation : ℤ := if _pierSide = PIER_EAST then -1 else 1
    some (90 * 3600 + orientation * sgn *
      (atoi (decParseDegrees d1 d2) * 3600 + atoi [m0, m1] * 60 + atoi [s0, s1]))

/-- eq500x.cpp lines 852-861, `MechanicalPoint::RA_degrees_to`: circular
signed RA distance in degrees from a point with `_RAm` to one with
`b_RAm`. -/
def RA_degrees_to (_RAm b_RAm : ℤ) : ℚ :=
  let delta0 : ℤ := b_RAm - _RAm
  let delta1 : ℤ := if 12 * 3600 < delta0 then delta0 - 24 * 3600 else delta0
  let delta2 : ℤ := if delta1 < -(12 * 3600) then delta1 + 24 * 3600 else delta1
  ((delta2 * 15 : ℤ) : ℚ) / 3600

/-- eq500x.cpp lines 863-867, `MechanicalPoint::DEC_degrees_to`: plain
signed DEC distance in degrees. -/
def DEC_degrees_to (_DECm b_DECm : ℤ) : ℚ := ((b_DECm - _DECm : ℤ) : ℚ) / 3600

/-- eq500x.cpp lines 451-457, the meridian-flip decision of
`EQ500X::Goto`: `HA = fmod(LST - ra + 12, 12)`, WEST iff
`(-12 < HA && HA <= -6) || (0 <= HA && HA < 6)`. -/
def gotoPierSide (LST ra : ℚ) : TelescopePierSide :=
  let HA : ℚ := ratFmod (LST - ra + 12) 12
  if (-12 < HA ∧ HA ≤ -6) ∨ (0 ≤ HA ∧ HA < 6) then PIER_WEST else PIER_EAST

/-!
## ConvergenceController

`ReadScopeStatus` holds the per-slew state in the driver object
(`TrackState`, `countdown`, `POLLMS`) and in function-static variables
(`previous_adjustment` and the `east/west/north/south` movement
markers).  `ScopeState` collects them; `readScopeStatusTick` is one
execution of the `SCOPE_SLEWING` branch of `ReadScopeStatus` for given
RA/DEC deltas, returning the new state, the list of command strings sent
over the wire, and what the tick concluded.  `none` models a fired
`assert` (or the out-of-table walk that the `assert(nullptr != ...)`
guards). -/

inductive TrackStateT
  | SCOPE_SLEWING
  | SCOPE_TRACKING
deriving DecidableEq, Repr

open TrackStateT

structure ScopeState where
  trackState : TrackStateT
  countdown : ℤ
  east : Bool
  west : Bool
  north : Bool
  south : Bool
  previous_adjustment : Option (Fin 5)
  pollms : ℕ
deriving DecidableEq, Repr

inductive TickOutcome
  | notSlewing
  | adjusting
  | intermediate
  | converged
  | convergenceFailed
deriving DecidableEq, Repr

/-- eq500x.cpp lines 272-274 / 279-281: first table row whose `distance`
is at least the delta; `none` when the scan leaves the table. -/
def tierFor (x : ℚ) : Option (Fin 5) :=
  if x ≤ (adjustments 0).distance then some 0
  else if x ≤ (adjustments 1).distance then some 1
  else if x ≤ (adjustments 2).distance then some 2
  else if x ≤ (adjustments 3).distance then some 3
  else if x ≤ (adjustments 4).distance then some 4
  else none

/-- `adjustment < previous_adjustment` pointer comparison of line 299:
false when `previous_adjustment` is still null. -/
def ltPrev (ai : Fin 5) : Option (Fin 5) → Bool
  | some p => decide (ai < p)
  | none => false

/-- eq500x.cpp lines 314-331 (and 335-352 for DEC): stop/start logic of
one axis.  `fpos`/`fneg` are the current movement markers of the
positive/negative direction, `qp qn mp mn` the stop and move tokens in
the order the C code appends them.  Returns the new markers and the
appended command text; `none` models the
`assert(!(go_east && go_west))` firing. -/
def axisMoves (eps delta : ℚ) (fpos fneg : Bool) (qp qn mp mn : String) :
    Option (Bool × Bool × String) :=
  if eps ≤ delta ∧ delta ≤ -eps then none
  else
    let p1 : Bool × String := if fpos ∧ (¬ (eps ≤ delta) ∨ delta ≤ -eps) then (false, qp) else (fpos, "")
    let p2 : Bool × String := if fneg ∧ (¬ (delta ≤ -eps) ∨ eps ≤ delta) then (false, qn) else (fneg, "")
    let p3 : Bool × String := if (eps ≤ delta) ∧ p1.1 = false then (true, mp) else (p1.1, "")
    let p4 : Bool × String := if (delta ≤ -eps) ∧ p2.1 = false then (true, mn) else (p2.1, "")
    some (p3.1, p4.1, p1.2 ++ p2.2 ++ p3.2 ++ p4.2)

/-- eq500x.cpp lines 256-428: one polling tick of the `SCOPE_SLEWING`
branch of `EQ500X::ReadScopeStatus`, for the current RA/DEC deltas in
degrees. -/
def readScopeStatusTick (s : ScopeState) (ra_delta dec_delta : ℚ) :
    Option (ScopeState × List String × TickOutcome) :=
  if s.trackState ≠ SCOPE_SLEWING then some (s, [], TickOutcome.notSlewing)
  else if RA_GRANULARITY ≤ |ra_delta| ∨ DEC_GRANULARITY ≤ |dec_delta| then
    match tierFor |ra_delta|, tierFor |dec_delta| with
    | some ri, some di =>
      let ai : Fin 5 := if ri < di then di else ri
      let cmd0 : String := if s.previous_adjustment ≠ some ai then (adjustments ai).slew_rate else ""
      let countdown1 : ℤ :=
        if s.previous_adjustment ≠ some ai ∧ ltPrev ai s.previous_adjustment then
          MAX_CONVERGENCE_LOOPS
        else s.countdown
      match (if ai = ri then
               axisMoves (max (adjustments ai).epsilon RA_GRANULARITY) ra_delta s.east s.west
                 ":Qe#" ":Qw#" ":Me#" ":Mw#"
             else some (s.east, s.west, "")) with
      | none => none
      | some (east1, west1, cmdRA) =>
        match (if ai = di then
                 axisMoves (max (adjustments ai).epsilon DEC_GRANULARITY) dec_delta s.south s.north
                   ":Qs#" ":Qn#" ":Ms#" ":Mn#"
               else some (s.south, s.north, "")) with
        | none => none
        | some (south1, north1, cmdDEC) =>
          if (east1 ∧ west1) ∨ (north1 ∧ south1) then none
          else
            let cmds : String := cmd0 ++ cmdRA ++ cmdDEC
            let sent : List String := if cmds ≠ "" then [cmds] else []
            if east1 = false ∧ west1 = false ∧ north1 = false ∧ south1 = false then
              some ({ s with east := east1, west := west1, north := north1, south := south1,
                             previous_adjustment := some ai, countdown := countdown1 },
                    sent, TickOutcome.intermediate)
            else if countdown1 - 1 ≤ 0 then
              some ({ s with east := east1, west := west1, north := north1, south := south1,
                             previous_adjustment := some ai, countdown := countdown1 - 1,
                             trackState := SCOPE_TRACKING, pollms := 1000 },
                    sent ++ [":Q#"], TickOutcome.convergenceFailed)
            else
              some ({ s with east := east1, west := west1, north := north1, south := south1,
                             previous_adjustment := some ai, countdown := countdown1 - 1,
                             pollms := (adjustments ai).polling_interval },
                    sent, TickOutcome.adjusting)
    | _, _ => none
  else
    some ({ s with trackState := SCOPE_TRACKING, pollms := 1000 }, [":Q#:RG#"], TickOutcome.converged)

/-- Movement markers and `previous_adjustment` are zero-initialized
function statics; `TrackState` starts in `SCOPE_TRACKING`
(`initProperties`, line 140). -/
def initialScopeState : ScopeState :=
  { trackState := SCOPE_TRACKING, countdown := 0, east := false, west := false,
    north := false, south := false, previous_adjustment := none, pollms := 1000 }

/-- eq500x.cpp lines 512-519, tail of `EQ500X::Goto`: arm the countdown
and enter `SCOPE_SLEWING` (the movement markers and previous adjustment
are deliberately not reset, lines 515-516 are comments only). -/
def gotoStart (s : ScopeState) : ScopeState :=
  { s with countdown := MAX_CONVERGENCE_LOOPS, trackState := SCOPE_SLEWING }

/-- Number of stop-all commands in a sent batch. -/
def countStopAll (l : List String) : ℕ := l.countP (fun c => decide (c = ":Q#"))

/-- Run `n` polling ticks under constant deltas, accumulating the number
of `":Q#"` stop-all emissions; `none` if any tick asserts. -/
def runTicks (rd dd : ℚ) : ℕ → ScopeState → Option (ScopeState × ℕ)
  | 0, s => some (s, 0)
  | n + 1, s =>
    match readScopeStatusTick s rd dd with
    | none => none
    | some (s1, cmds, _) =>
      match runTicks rd dd n s1 with
      | none => none
      | some (s2, k) => some (s2, countStopAll cmds + k)

/-!
## Arithmetic groundwork
-/

theorem RA_GRANULARITY_eq : RA_GRANULARITY = 15 / 3600 := by
  norm_num [RA_GRANULARITY, ARCSECOND, ONEDEGREE, lround, ratTrunc]

theorem DEC_GRANULARITY_eq : DEC_GRANULARITY = 1 / 3600 := by
  norm_num [DEC_GRANULARITY, ARCSECOND, ONEDEGREE, lround, ratTrunc]

/-- For a nonnegative dividend and positive divisor, C `fmod` is the
ordinary remainder: nonnegative and below the divisor. -/
theorem ratFmod_nonneg_bounds (x y : ℚ) (hx : 0 ≤ x) (hy : 0 < y) :
    0 ≤ ratFmod x y ∧ ratFmod x y < y := by
  have hdiv : (0:ℚ) ≤ x / y := div_nonneg hx hy.le
  have htr : ratTrunc (x / y) = ⌊x / y⌋ := by simp [ratTrunc, hdiv]
  have h1 : (⌊x / y⌋ : ℚ) ≤ x / y := Int.floor_le _
  have h2 : x / y < ⌊x / y⌋ + 1 := Int.lt_floor_add_one _
  constructor
  · have := mul_le_mul_of_nonneg_left h1 hy.le
    rw [ratFmod, htr]
    rw [mul_comm] at this
    nlinarith [div_mul_cancel₀ x (ne_of_gt hy)]
  · have := mul_lt_mul_of_pos_left h2 hy
    rw [ratFmod, htr]
    nlinarith [div_mul_cancel₀ x (ne_of_gt hy)]

/-- For a nonnegative argument, C `lround` is `⌊q + 1/2⌋`. -/
theorem lround_nonneg_eq (q : ℚ) (h : 0 ≤ q) : lround q = ⌊q + 1/2⌋ := by
  simp [lround, h]

theorem lround_bounds (q : ℚ) (B : ℤ) (h0 : 0 ≤ q) (h1 : q < B) :
    0 ≤ lround q ∧ lround q ≤ B := by
  rw [lround_nonneg_eq q h0]
  constructor
  · exact Int.le_floor.2 (by push_cast; linarith)
  · have : ⌊q + 1/2⌋ < B + 1 := Int.floor_lt.2 (by push_cast; linarith)
    omega

theorem lround_lower (q : ℚ) (A : ℤ) (h : (A : ℚ) ≤ q) : A ≤ lround q := by
  have h0 : (0:ℚ) ≤ q ∨ q < 0 := le_or_lt 0 q
  rcases h0 with h0 | h0
  · rw [lround_nonneg_eq q h0]
    exact Int.le_floor.2 (by linarith)
  · rcases le_or_lt A 0 with hA | hA
    · have : -⌊-q + 1/2⌋ ≥ A := by
        have hq2 : -q + 1/2 < -(A:ℚ) + 1 := by linarith
        have : ⌊-q + 1/2⌋ < -A + 1 := Int.floor_lt.2 (by push_cast; linarith)
        omega
      simpa [lround, not_le.2 h0] using this
    · exfalso
      have : (A : ℚ) > 0 := by exact_mod_cast Int.cast_pos.2 hA
      linarith

/-!
## Claim C4 — normalization of the RA/DEC setters
-/

/-- Claim C4 (corrected): the claimed invariant `raTicks ∈ [0,86400)` and
`decTicks ∈ [0,256*3600)` for every real input fails; what holds is that
for inputs of at least one negative period (`-24` hours resp. `-256`
degrees), the setters land in the closed ranges `[0, 86400]` and
`[0, 256*3600]` — the right endpoint is reachable by rounding, and inputs
below `-24`/`-256` can produce negative tick counts. -/
theorem setter_normalization_amended :
    ∀ v : ℚ, (-24 ≤ v → 0 ≤ RAm_set v ∧ RAm_set v ≤ 24 * 3600) ∧
             (-256 ≤ v → 0 ≤ DECm_set v ∧ DECm_set v ≤ 256 * 3600) := by
  intro v
  constructor
  · intro hv
    have hx : (0:ℚ) ≤ v + 24 := by linarith
    obtain ⟨hm0, hm1⟩ := ratFmod_nonneg_bounds (v + 24) 24 hx (by norm_num)
    have h0 : (0:ℚ) ≤ ratFmod (v + 24) 24 * 3600 := by positivity
    have h1 : ratFmod (v + 24) 24 * 3600 < ((24 * 3600 : ℤ) : ℚ) := by push_cast; nlinarith
    exact lround_bounds _ _ h0 h1
  · intro hv
    have hx : (0:ℚ) ≤ v + 256 := by linarith
    obtain ⟨hm0, hm1⟩ := ratFmod_nonneg_bounds (v + 256) 256 hx (by norm_num)
    have h0 : (0:ℚ) ≤ ratFmod (v + 256) 256 * 3600 := by positivity
    have h1 : ratFmod (v + 256) 256 * 3600 < ((256 * 3600 : ℤ) : ℚ) := by push_cast; nlinarith
    exact lround_bounds _ _ h0 h1

/-- Witness for `setter_normalization_amended` at `v = 0`. -/
theorem setter_normalization_amended_witness :
    0 ≤ RAm_set 0 ∧ RAm_set 0 ≤ 24 * 3600 :=
  (setter_normalization_amended 0).1 (by norm_num)

/-- Claim C4 counterexample: `RAm(-25)` stores `-3600` ticks (negative),
and `DECm(-1/14400)` stores exactly `256*3600` ticks, so neither
`[0,86400)` nor `[0,256*3600)` is an invariant of the setters. -/
theorem setter_normalization_counterexample :
    RAm_set (-25) = -3600 ∧ ¬ (0 ≤ RAm_set (-25) ∧ RAm_set (-25) < 24 * 3600) ∧
    DECm_set (-1/14400) = 256 * 3600 ∧ ¬ DECm_set (-1/14400) < 256 * 3600 := by
  have h1 : RAm_set (-25) = -3600 := by
    norm_num [RAm_set, lround, ratFmod, ratTrunc]
  have h2 : DECm_set (-1/14400) = 256 * 3600 := by
    norm_num [DECm_set, lround, ratFmod, ratTrunc]
  refine ⟨h1, ?_, h2, ?_⟩
  · rw [h1]; omega
  · rw [h2]; omega

/-!
## Claim C1 — pier-side selection in Goto
-/

/-- Claim C1 (corrected): `Goto` computes `HA = fmod(LST - RA + 12, 12)`
and selects WEST exactly when `HA ∈ (-12,-6] ∪ [0,6)`, EAST otherwise.
`HA = -7` selects WEST and `HA = -6` selects WEST as claimed, but
`HA = +3` lies in `[0,6)` and therefore selects WEST, not EAST as the
claim states. -/
theorem pier_side_selection_amended :
    (∀ LST ra : ℚ, gotoPierSide LST ra = PIER_WEST ↔
       ((-12 < ratFmod (LST - ra + 12) 12 ∧ ratFmod (LST - ra + 12) 12 ≤ -6) ∨
        (0 ≤ ratFmod (LST - ra + 12) 12 ∧ ratFmod (LST - ra + 12) 12 < 6))) ∧
    (ratFmod (1 - 20 + 12) 12 = -7 ∧ gotoPierSide 1 20 = PIER_WEST) ∧
    (ratFmod (3 - 12 + 12) 12 = 3 ∧ gotoPierSide 3 12 = PIER_WEST) ∧
    (ratFmod (2 - 20 + 12) 12 = -6 ∧ gotoPierSide 2 20 = PIER_WEST) := by
  refine ⟨?_, ⟨?_, ?_⟩, ⟨?_, ?_⟩, ⟨?_, ?_⟩⟩
  · intro LST ra
    simp only [gotoPierSide]
    split_ifs with h
    · simpa using h
    · simpa using h
  · norm_num [ratFmod, ratTrunc]
  · norm_num [gotoPierSide, ratFmod, ratTrunc]
  · norm_num [ratFmod, ratTrunc]
  · norm_num [gotoPierSide, ratFmod, ratTrunc]
  · norm_num [ratFmod, ratTrunc]
  · norm_num [gotoPierSide, ratFmod, ratTrunc]

/-- Claim C1 counterexample: with `LST = 3` and `RA = 12` the hour angle
is exactly `+3`, and the code selects WEST — not EAST as the claim's
`HA = +3` example asserts. -/
theorem pier_side_ha3_counterexample :
    ratFmod (3 - 12 + 12) 12 = 3 ∧ gotoPierSide 3 12 ≠ PIER_EAST := by
  constructor
  · norm_num [ratFmod, ratTrunc]
  · have h : gotoPierSide 3 12 = PIER_WEST := by
      norm_num [gotoPierSide, ratFmod, ratTrunc]
    rw [h]
    simp

/-!
## Claim C6 — circular RA distance
-/

/-- Claim C6 (corrected): `RA_degrees_to` is the tick difference wrapped
into the closed range `[-12h, +12h]` — not the half-open `(-12h, +12h]`
of the claim, since a delta of exactly `-12h` is left unchanged — then
scaled to degrees; the distance from 23:59:59 to 00:00:01 is `+1/120`
degree (30 arcseconds), not about 360 degrees. -/
theorem ra_distance_amended :
    (∀ a b : ℤ, 0 ≤ a → a < 86400 → 0 ≤ b → b < 86400 →
       -180 ≤ RA_degrees_to a b ∧ RA_degrees_to a b ≤ 180 ∧
       ∃ k : ℤ, RA_degrees_to a b * 240 = ((b - a : ℤ) : ℚ) + 86400 * k) ∧
    RA_degrees_to 86399 1 = 1 / 120 := by
  constructor
  · intro a b ha0 ha1 hb0 hb1
    simp only [RA_degrees_to]
    split_ifs with h1 h2 h2
    · omega
    · have hq1 : (-43200 : ℚ) ≤ (b:ℚ) - a - 86400 := by
        have : (-43200 : ℤ) ≤ b - a - 86400 := by omega
        exact_mod_cast this
      have hq2 : ((b:ℚ) - a - 86400) ≤ 43200 := by
        have : b - a - 86400 ≤ (43200 : ℤ) := by omega
        exact_mod_cast this
      refine ⟨by push_cast; linarith, by push_cast; linarith, ⟨-1, by push_cast; ring⟩⟩
    · have hq1 : (-43200 : ℚ) ≤ (b:ℚ) - a + 86400 := by
        have : (-43200 : ℤ) ≤ b - a + 86400 := by omega
        exact_mod_cast this
      have hq2 : ((b:ℚ) - a + 86400) ≤ 43200 := by
        have : b - a + 86400 ≤ (43200 : ℤ) := by omega
        exact_mod_cast this
      refine ⟨by push_cast; linarith, by push_cast; linarith, ⟨1, by push_cast; ring⟩⟩
    · have hq1 : (-43200 : ℚ) ≤ (b:ℚ) - a := by
        have : (-43200 : ℤ) ≤ b - a := by omega
        exact_mod_cast this
      have hq2 : ((b:ℚ) - a) ≤ 43200 := by
        have : b - a ≤ (43200 : ℤ) := by omega
        exact_mod_cast this
      refine ⟨by push_cast; linarith, by push_cast; linarith, ⟨0, by push_cast; ring⟩⟩
  · norm_num [RA_degrees_to]

/-- Witness for `ra_distance_amended` at the claim's own example pair
(23:59:59 and 00:00:01, ticks 86399 and 1). -/
theorem ra_distance_amended_witness :
    -180 ≤ RA_degrees_to 86399 1 ∧ RA_degrees_to 86399 1 ≤ 180 ∧
    ∃ k : ℤ, RA_degrees_to 86399 1 * 240 = ((1 - 86399 : ℤ) : ℚ) + 86400 * k :=
  ra_distance_amended.1 86399 1 (by omega) (by omega) (by omega) (by omega)

/-- Claim C6 counterexample: from `_RAm = 43200` (12h) to `_RAm = 0` the
code returns exactly `-180` degrees, which is outside the claimed
half-open wrap range `(-12h, +12h] × 15 = (-180, 180]`. -/
theorem ra_distance_counterexample :
    RA_degrees_to 43200 0 = -180 ∧ ¬ (-180 < RA_degrees_to 43200 0) := by
  have h : RA_degrees_to 43200 0 = -180 := by norm_num [RA_degrees_to]
  exact ⟨h, by rw [h]; norm_num⟩

/-!
## Claim C7 — slew-rate table invariant
-/

/-- Claim C7 (confirmed): in the shipped five-tier table, every adjacent
pair satisfies `epsilon[i+1] ≤ distance[i]`, so the startup assertion of
the constructor holds on all four adjacent pairs. -/
theorem tier_table_invariant :
    ∀ i : Fin 4, (adjustments i.succ).epsilon ≤ (adjustments i.castSucc).distance := by
  intro i
  fin_cases i
  · show (adjustments 1).epsilon ≤ (adjustments 0).distance
    norm_num [adjustments_one, adjustments_zero, ARCMINUTE, ARCSECOND, ONEDEGREE]
  · show (adjustments 2).epsilon ≤ (adjustments 1).distance
    norm_num [adjustments_two, adjustments_one, ARCMINUTE, ARCSECOND, ONEDEGREE]
  · show (adjustments 3).epsilon ≤ (adjustments 2).distance
    norm_num [adjustments_three, adjustments_two, ARCMINUTE, ARCSECOND, ONEDEGREE]
  · show (adjustments 4).epsilon ≤ (adjustments 3).distance
    norm_num [adjustments_four, adjustments_three, ARCMINUTE, ARCSECOND, ONEDEGREE]

/-!
## Byte values of the protocol characters
-/

theorem chr_plus : chr '+' = 43 := by decide

theorem chr_minus : chr '-' = 45 := by decide

theorem chr_zero : chr '0' = 48 := by decide

theorem chr_one : chr '1' = 49 := by decide

theorem chr_two : chr '2' = 50 := by decide

theorem chr_three : chr '3' = 51 := by decide

theorem chr_four : chr '4' = 52 := by decide

theorem chr_five : chr '5' = 53 := by decide

theorem chr_six : chr '6' = 54 := by decide

theorem chr_seven : chr '7' = 55 := by decide

theorem chr_eight : chr '8' = 56 := by decide

theorem chr_nine : chr '9' = 57 := by decide

theorem chr_colon : chr ':' = 58 := by decide

theorem chr_semi : chr ';' = 59 := by decide

theorem chr_langle : chr '<' = 60 := by decide

theorem chr_equal : chr '=' = 61 := by decide

theorem chr_rangle : chr '>' = 62 := by decide

theorem chr_question : chr '?' = 63 := by decide

theorem chr_at : chr '@' = 64 := by decide

theorem chr_A : chr 'A' = 65 := by decide

theorem chr_B : chr 'B' = 66 := by decide

theorem chr_C : chr 'C' = 67 := by decide

theorem chr_D : chr 'D' = 68 := by decide

theorem chr_E : chr 'E' = 69 := by decide

theorem chr_F : chr 'F' = 70 := by decide

theorem chr_G : chr 'G' = 71 := by decide

theorem chr_H : chr 'H' = 72 := by decide

theorem chr_I : chr 'I' = 73 := by decide

/-!
## atoi / fmt02 / tdiv-tmod groundwork
-/

theorem isSpaceByte_digit (b : ℤ) (h : 48 ≤ b) : isSpaceByte b = false := by
  simp only [isSpaceByte, decide_eq_false_iff_not]
  omega

theorem neg_tmod' (a b : ℤ) : (-a).tmod b = -(a.tmod b) := by
  rw [Int.tmod_def, Int.tmod_def, Int.neg_tdiv]; ring

theorem tmod_small (a b : ℤ) (h1 : -b < a) (h2 : a < b) : a.tmod b = a := by
  rcases le_or_lt 0 a with h | h
  · exact Int.tmod_eq_of_lt h h2
  · have h3 : (-a).tmod b = -a := Int.tmod_eq_of_lt (by omega) (by omega)
    have h4 := neg_tmod' (-a) b
    rw [neg_neg, h3] at h4
    omega

/-- Truncating division through the absolute value, split by sign. -/
theorem tdiv_via_natAbs (v d : ℤ) :
    (0 ≤ v → v.tdiv d = (v.natAbs : ℤ).tdiv d) ∧
    (v < 0 → v.tdiv d = -((v.natAbs : ℤ).tdiv d)) := by
  constructor
  · intro h
    rw [Int.natAbs_of_nonneg h]
  · intro h
    have h1 : (v.natAbs : ℤ) = -v := by omega
    rw [h1]
    rw [show v = -(-v) by ring, Int.neg_tdiv, neg_neg]

theorem tdiv_eq_ediv_nonneg (a d : ℤ) (ha : 0 ≤ a) (hd : 0 ≤ d) : a.tdiv d = a / d :=
  Int.tdiv_eq_ediv ha hd

theorem tmod_eq_emod_nonneg (a d : ℤ) (ha : 0 ≤ a) (hd : 0 ≤ d) : a.tmod d = a % d :=
  Int.tmod_eq_emod ha hd

theorem atoi_two (a b : ℤ) (ha : 48 ≤ a) (ha' : a ≤ 57) (hb : 48 ≤ b) (hb' : b ≤ 57) :
    atoi [a, b] = 10 * (a - 48) + (b - 48) := by
  have hsa : isSpaceByte a = false := isSpaceByte_digit a ha
  simp only [atoi, List.dropWhile_cons, hsa, Bool.false_eq_true, if_false, chr_minus, chr_plus]
  rw [if_neg (by omega), if_neg (by omega)]
  simp only [atoiDigits]
  rw [if_pos ⟨ha, ha'⟩, if_pos ⟨hb, hb'⟩]
  ring

theorem atoi_three (a b c : ℤ) (ha : 48 ≤ a) (ha' : a ≤ 57) (hb : 48 ≤ b) (hb' : b ≤ 57)
    (hc : 48 ≤ c) (hc' : c ≤ 57) :
    atoi [a, b, c] = 100 * (a - 48) + 10 * (b - 48) + (c - 48) := by
  have hsa : isSpaceByte a = false := isSpaceByte_digit a ha
  simp only [atoi, List.dropWhile_cons, hsa, Bool.false_eq_true, if_false, chr_minus, chr_plus]
  rw [if_neg (by omega), if_neg (by omega)]
  simp only [atoiDigits]
  rw [if_pos ⟨ha, ha'⟩, if_pos ⟨hb, hb'⟩, if_pos ⟨hc, hc'⟩]
  ring

theorem fmt02_eq_pair (n : ℤ) (h0 : 0 ≤ n) (h1 : n < 60) :
    fmt02 n = [48 + n / 10, 48 + n % 10] := by
  interval_cases n <;> decide

theorem decHighDigit_eq (deg : ℤ) (h : deg.natAbs ≤ 255) :
    decHighDigit deg = some (48 + (deg.natAbs : ℤ) / 10) := by
  have ht : ((deg.natAbs : ℤ)).tdiv 10 = (deg.natAbs : ℤ) / 10 :=
    tdiv_eq_ediv_nonneg _ _ (by positivity) (by norm_num)
  by_cases h100 : deg.natAbs < 100
  · have hc : -100 < deg ∧ deg < 100 := by omega
    simp only [decHighDigit, if_pos hc, chr_zero, ht]
  · have hcond : ¬ (-100 < deg ∧ deg < 100) := by omega
    obtain ⟨q, hq⟩ : ∃ q, (deg.natAbs : ℤ) / 10 = q := ⟨_, rfl⟩
    have hq1 : 10 ≤ q := by omega
    have hq2 : q ≤ 25 := by omega
    simp only [decHighDigit, if_neg hcond, ht, hq]
    interval_cases q <;>
      norm_num [chr_colon, chr_semi, chr_langle, chr_equal, chr_rangle, chr_question,
        chr_at, chr_A, chr_B, chr_C, chr_D, chr_E, chr_F, chr_G, chr_H, chr_I]

theorem decParseDegrees_atoi (q r : ℤ) (hq0 : 0 ≤ q) (hq : q ≤ 25) (hr0 : 0 ≤ r) (hr : r ≤ 9) :
    atoi (decParseDegrees (48 + q) (48 + r)) = 10 * q + r := by
  interval_cases q <;>
    · simp only [decParseDegrees, chr_colon, chr_semi, chr_langle, chr_equal, chr_rangle,
        chr_question, chr_at, chr_A, chr_B, chr_C, chr_D, chr_E, chr_F, chr_G, chr_H, chr_I,
        chr_zero, chr_one, chr_two, chr_three, chr_four, chr_five, chr_six, chr_seven,
        chr_eight, chr_nine]
      norm_num
      rw [atoi_three _ _ _ (by omega) (by omega) (by omega) (by omega) (by omega) (by omega)]
      omega

/-!
## DEC codec evaluation
-/

/-- Explicit byte-level form of `toStringDEC` for tick values whose
degree field stays within the representable range and whose arcsecond
remainder does not fall in the sign-losing gap `(-3600, 0)`. -/
theorem toStringDEC_eval (t : ℤ) (side : TelescopePierSide) (v : ℤ)
    (hv : v = if side = PIER_EAST then 90 * 3600 - t else t - 90 * 3600)
    (hlo : -597600 ≤ v) (hhi : v ≤ 597600) (hsgn : 0 ≤ v ∨ v ≤ -3600) :
    toStringDEC t side = some
      [if 0 ≤ v then 43 else 45,
       48 + (v.natAbs : ℤ) / 3600 / 10,
       48 + (v.natAbs : ℤ) / 3600 % 10,
       58,
       48 + (v.natAbs : ℤ) / 60 % 60 / 10,
       48 + (v.natAbs : ℤ) / 60 % 60 % 10,
       58,
       48 + (v.natAbs : ℤ) % 60 / 10,
       48 + (v.natAbs : ℤ) % 60 % 10] := by
  have hA0 : (0:ℤ) ≤ (v.natAbs : ℤ) := by positivity
  have hA1 : (v.natAbs : ℤ) ≤ 597600 := by omega
  have htdA : ((v.natAbs : ℤ)).tdiv 60 = (v.natAbs : ℤ) / 60 :=
    tdiv_eq_ediv_nonneg _ _ hA0 (by norm_num)
  have htmA : ((v.natAbs : ℤ)).tmod 60 = (v.natAbs : ℤ) % 60 :=
    tmod_eq_emod_nonneg _ _ hA0 (by norm_num)
  have htm60 : ((v.natAbs : ℤ) / 60).tmod 60 = (v.natAbs : ℤ) / 60 % 60 :=
    tmod_eq_emod_nonneg _ _ (by positivity) (by norm_num)
  have hm0 : 0 ≤ (v.natAbs : ℤ) / 60 % 60 := Int.emod_nonneg _ (by norm_num)
  have hm1 : (v.natAbs : ℤ) / 60 % 60 < 60 := Int.emod_lt_of_pos _ (by norm_num)
  have hs0 : 0 ≤ (v.natAbs : ℤ) % 60 := Int.emod_nonneg _ (by norm_num)
  have hs1 : (v.natAbs : ℤ) % 60 < 60 := Int.emod_lt_of_pos _ (by norm_num)
  have hfm : fmt02 ((v.natAbs : ℤ) / 60 % 60) =
      [48 + (v.natAbs : ℤ) / 60 % 60 / 10, 48 + (v.natAbs : ℤ) / 60 % 60 % 10] :=
    fmt02_eq_pair _ hm0 hm1
  have hfs : fmt02 ((v.natAbs : ℤ) % 60) =
      [48 + (v.natAbs : ℤ) % 60 / 10, 48 + (v.natAbs : ℤ) % 60 % 10] :=
    fmt02_eq_pair _ hs0 hs1
  rcases hsgn with hpos | hneg
  · have hAv : (v.natAbs : ℤ) = v := by omega
    have hdeg : v.tdiv 3600 = (v.natAbs : ℤ) / 3600 := by
      rw [(tdiv_via_natAbs v 3600).1 hpos]
      exact tdiv_eq_ediv_nonneg _ _ hA0 (by norm_num)
    have hdegbound : 0 ≤ (v.natAbs : ℤ) / 3600 ∧ (v.natAbs : ℤ) / 3600 ≤ 166 := by omega
    have htm : ((v.natAbs : ℤ) / 3600).tmod 256 = (v.natAbs : ℤ) / 3600 :=
      tmod_small _ _ (by omega) (by omega)
    have hhigh : decHighDigit ((v.natAbs : ℤ) / 3600) =
        some (48 + (v.natAbs : ℤ) / 3600 / 10) := by
      have h255 : ((v.natAbs : ℤ) / 3600).natAbs ≤ 255 := by omega
      have hnn : ((((v.natAbs : ℤ) / 3600).natAbs : ℤ)) = (v.natAbs : ℤ) / 3600 := by omega
      rw [decHighDigit_eq _ h255, hnn]
    have hlowAbs : ((((v.natAbs : ℤ) / 3600).natAbs : ℤ)) = (v.natAbs : ℤ) / 3600 := by omega
    have htm10 : ((v.natAbs : ℤ) / 3600).tmod 10 = (v.natAbs : ℤ) / 3600 % 10 :=
      tmod_eq_emod_nonneg _ _ (by omega) (by norm_num)
    simp only [toStringDEC, ← hv, hdeg, htm, hhigh, hlowAbs, htm10, htdA, htmA, htm60,
      hfm, hfs, chr_zero, chr_plus, chr_minus, chr_colon]
    rw [if_neg (by omega), if_pos (by omega : (0:ℤ) ≤ (v.natAbs : ℤ) / 3600), if_pos hpos]
    simp [List.cons_append, List.nil_append]
  · have hAv : (v.natAbs : ℤ) = -v := by omega
    have hdeg : v.tdiv 3600 = -((v.natAbs : ℤ) / 3600) := by
      rw [(tdiv_via_natAbs v 3600).2 (by omega)]
      rw [tdiv_eq_ediv_nonneg _ _ hA0 (by norm_num)]
    have hdegbound : 1 ≤ (v.natAbs : ℤ) / 3600 ∧ (v.natAbs : ℤ) / 3600 ≤ 166 := by omega
    have htm : (-((v.natAbs : ℤ) / 3600)).tmod 256 = -((v.natAbs : ℤ) / 3600) :=
      tmod_small _ _ (by omega) (by omega)
    have hhigh : decHighDigit (-((v.natAbs : ℤ) / 3600)) =
        some (48 + (v.natAbs : ℤ) / 3600 / 10) := by
      have h255 : (-((v.natAbs : ℤ) / 3600)).natAbs ≤ 255 := by omega
      have hnn : (((-((v.natAbs : ℤ) / 3600)).natAbs : ℤ)) = (v.natAbs : ℤ) / 3600 := by omega
      rw [decHighDigit_eq _ h255, hnn]
    have hlowAbs : (((-((v.natAbs : ℤ) / 3600)).natAbs : ℤ)) = (v.natAbs : ℤ) / 3600 := by omega
    have htm10 : ((v.natAbs : ℤ) / 3600).tmod 10 = (v.natAbs : ℤ) / 3600 % 10 :=
      tmod_eq_emod_nonneg _ _ (by omega) (by norm_num)
    simp only [toStringDEC, ← hv, hdeg, htm, hhigh, hlowAbs, htm10, htdA, htmA, htm60,
      hfm, hfs, chr_zero, chr_plus, chr_minus, chr_colon]
    rw [if_neg (by omega), if_neg (by omega : ¬ (0:ℤ) ≤ -((v.natAbs : ℤ) / 3600)),
      if_neg (by omega : ¬ (0:ℤ) ≤ v)]
    simp [List.cons_append, List.nil_append]

/-- Explicit form of `parseStringDEC` on a 9-byte reply whose high-digit
byte is in the accepted `'0'..'I'` window. -/
theorem parseStringDEC_eval (side : TelescopePierSide) (c0 x1 x2 m0 m1 s0 s1 : ℤ)
    (hx1 : 48 ≤ x1) (hx1' : x1 ≤ 73) :
    parseStringDEC [c0, x1, x2, 58, m0, m1, 58, s0, s1] side = some
      (90 * 3600 + (if side = PIER_EAST then -1 else 1) * (if c0 = 45 then -1 else 1) *
        (atoi (decParseDegrees x1 x2) * 3600 + atoi [m0, m1] * 60 + atoi [s0, s1])) := by
  have hb : ([c0, x1, x2, 58, m0, m1, 58, s0, s1].take 10 ++
      List.replicate (10 - min 10 [c0, x1, x2, 58, m0, m1, 58, s0, s1].length) 0) =
      [c0, x1, x2, 58, m0, m1, 58, s0, s1, 0] := rfl
  have hg1 : [c0, x1, x2, 58, m0, m1, 58, s0, s1, 0].getD 1 0 = x1 := rfl
  have hg0 : [c0, x1, x2, 58, m0, m1, 58, s0, s1, 0].getD 0 0 = c0 := rfl
  have hg2 : [c0, x1, x2, 58, m0, m1, 58, s0, s1, 0].getD 2 0 = x2 := rfl
  have hg4 : [c0, x1, x2, 58, m0, m1, 58, s0, s1, 0].getD 4 0 = m0 := rfl
  have hg5 : [c0, x1, x2, 58, m0, m1, 58, s0, s1, 0].getD 5 0 = m1 := rfl
  have hg7 : [c0, x1, x2, 58, m0, m1, 58, s0, s1, 0].getD 7 0 = s0 := rfl
  have hg8 : [c0, x1, x2, 58, m0, m1, 58, s0, s1, 0].getD 8 0 = s1 := rfl
  have hcond : ¬ (x1 < chr '0' ∨ chr 'I' < x1) := by
    rw [chr_zero, chr_I]; omega
  simp only [parseStringDEC, hb, hg0, hg1, hg2, hg4, hg5, hg7, hg8, chr_minus]
  rw [if_neg (by rw [chr_zero, chr_I]; omega : ¬ (x1 < chr '0' ∨ chr 'I' < x1))]

/-- The four-way sign/orientation bookkeeping of the DEC round trip, for
any tick value outside the WEST sign-losing gap. -/
theorem dec_roundtrip_core (t : ℤ) (side : TelescopePierSide)
    (h0 : 0 ≤ t) (h1 : t ≤ 921600)
    (hEast : side = PIER_EAST → t ≤ 324000 ∨ 327600 ≤ t)
    (hOther : side ≠ PIER_EAST → t ≤ 320400 ∨ 324000 ≤ t) :
    ∃ cs, toStringDEC t side = some cs ∧ parseStringDEC cs side = some t := by
  have hvdef : (if side = PIER_EAST then 90 * 3600 - t else t - 90 * 3600) =
      (if side = PIER_EAST then 90 * 3600 - t else t - 90 * 3600) := rfl
  set v : ℤ := if side = PIER_EAST then 90 * 3600 - t else t - 90 * 3600 with hv
  have hbounds : -597600 ≤ v ∧ v ≤ 597600 := by
    by_cases hs : side = PIER_EAST <;> simp only [hv, hs, if_true, if_false] <;> omega
  have hsgn : 0 ≤ v ∨ v ≤ -3600 := by
    by_cases hs : side = PIER_EAST
    · rcases hEast hs with h | h <;> simp only [hv, hs, if_true] <;> omega
    · rcases hOther hs with h | h <;> simp only [hv, hs, if_false] <;> omega
  have henc := toStringDEC_eval t side v hv hbounds.1 hbounds.2 hsgn
  refine ⟨_, henc, ?_⟩
  have hq10 : 48 ≤ 48 + (v.natAbs : ℤ) / 3600 / 10 := by omega
  have hq1h : 48 + (v.natAbs : ℤ) / 3600 / 10 ≤ 73 := by omega
  rw [parseStringDEC_eval side _ _ _ _ _ _ _ hq10 hq1h]
  have hdegs : atoi (decParseDegrees (48 + (v.natAbs : ℤ) / 3600 / 10)
      (48 + (v.natAbs : ℤ) / 3600 % 10)) = (v.natAbs : ℤ) / 3600 := by
    rw [show (48 + (v.natAbs : ℤ) / 3600 % 10) = (48 + ((v.natAbs : ℤ) / 3600 % 10)) from rfl]
    rw [decParseDegrees_atoi _ _ (by omega) (by omega) (by omega) (by omega)]
    omega
  have hmins : atoi [48 + (v.natAbs : ℤ) / 60 % 60 / 10, 48 + (v.natAbs : ℤ) / 60 % 60 % 10] =
      (v.natAbs : ℤ) / 60 % 60 := by
    rw [atoi_two _ _ (by omega) (by omega) (by omega) (by omega)]
    omega
  have hsecs : atoi [48 + (v.natAbs : ℤ) % 60 / 10, 48 + (v.natAbs : ℤ) % 60 % 10] =
      (v.natAbs : ℤ) % 60 := by
    rw [atoi_two _ _ (by omega) (by omega) (by omega) (by omega)]
    omega
  rw [hdegs, hmins, hsecs]
  have hrecomp : (v.natAbs : ℤ) / 3600 * 3600 + (v.natAbs : ℤ) / 60 % 60 * 60 +
      (v.natAbs : ℤ) % 60 = (v.natAbs : ℤ) := by omega
  rw [hrecomp]
  by_cases hs : side = PIER_EAST
  · rw [if_pos hs]
    rcases hsgn with hpos | hneg
    · rw [if_pos hpos, if_neg (by omega : ¬ (43:ℤ) = 45)]
      have hveq : v = 90 * 3600 - t := by rw [hv, if_pos hs]
      refine congrArg some ?_
      omega
    · rw [if_neg (by omega : ¬ (0:ℤ) ≤ v), if_pos rfl]
      have hveq : v = 90 * 3600 - t := by rw [hv, if_pos hs]
      refine congrArg some ?_
      omega
  · rw [if_neg hs]
    rcases hsgn with hpos | hneg
    · rw [if_pos hpos, if_neg (by omega : ¬ (43:ℤ) = 45)]
      have hveq : v = t - 90 * 3600 := by rw [hv, if_neg hs]
      refine congrArg some ?_
      omega
    · rw [if_neg (by omega : ¬ (0:ℤ) ≤ v), if_pos rfl]
      have hveq : v = t - 90 * 3600 := by rw [hv, if_neg hs]
      refine congrArg some ?_
      omega

/-- For DEC degrees in `[-90, 90]` the setter lands in
`[0, 324000] ∪ [597600, 921600]` ticks. -/
theorem DECm_set_range (d : ℚ) (h0 : -90 ≤ d) (h1 : d ≤ 90) :
    (0 ≤ DECm_set d ∧ DECm_set d ≤ 324000) ∨
    (597600 ≤ DECm_set d ∧ DECm_set d ≤ 921600) := by
  rcases le_or_lt 0 d with hd | hd
  · left
    have hge : (1:ℚ) ≤ (d + 256) / 256 := by
      rw [le_div_iff₀ (by norm_num : (0:ℚ) < 256)]; linarith
    have hlt : (d + 256) / 256 < 2 := by
      rw [div_lt_iff₀ (by norm_num : (0:ℚ) < 256)]; linarith
    have hfl : ratTrunc ((d + 256) / 256) = 1 := by
      have hnn : (0:ℚ) ≤ (d + 256) / 256 := by linarith
      have : ⌊(d + 256) / 256⌋ = 1 := Int.floor_eq_iff.2 ⟨by push_cast; linarith,
        by push_cast; linarith⟩
      simp [ratTrunc, hnn, this]
    have hfmod : ratFmod (d + 256) 256 = d := by
      rw [ratFmod, hfl]; push_cast; ring
    rw [DECm_set, hfmod, lround_nonneg_eq _ (by positivity)]
    constructor
    · exact Int.le_floor.2 (by push_cast; linarith)
    · have : ⌊d * 3600 + 1/2⌋ < 324001 := Int.floor_lt.2 (by push_cast; linarith)
      omega
  · right
    have hge : (0:ℚ) ≤ (d + 256) / 256 := by
      apply div_nonneg _ (by norm_num)
      linarith
    have hlt : (d + 256) / 256 < 1 := by
      rw [div_lt_iff₀ (by norm_num : (0:ℚ) < 256)]; linarith
    have hfl : ratTrunc ((d + 256) / 256) = 0 := by
      have : ⌊(d + 256) / 256⌋ = 0 := Int.floor_eq_iff.2 ⟨by push_cast; linarith,
        by push_cast; linarith⟩
      simp [ratTrunc, hge, this]
    have hfmod : ratFmod (d + 256) 256 = d + 256 := by
      rw [ratFmod, hfl]; push_cast; ring
    rw [DECm_set, hfmod, lround_nonneg_eq _ (by nlinarith)]
    constructor
    · exact Int.le_floor.2 (by push_cast; nlinarith)
    · have : ⌊(d + 256) * 3600 + 1/2⌋ < 921601 := Int.floor_lt.2 (by push_cast; nlinarith)
      omega

/-!
## Claim C2 — DEC round trip
-/

/-- Claim C2 (corrected): setting DEC to `d ∈ [-90, 90]`, encoding with
`toStringDEC` and decoding with `parseStringDEC` under the same pier side
returns the stored DEC exactly — provided the pier side is EAST, or the
stored ticks do not fall strictly between 89° and 90° (320400..324000
ticks).  In that WEST/UNKNOWN window the claim fails: the degree field is
`0` but the arcminute remainder is negative, the `'+'` sign erases the
orientation, and decoding drifts by up to two degrees. -/
theorem dec_roundtrip_amended :
    ∀ (d : ℚ) (side : TelescopePierSide), -90 ≤ d → d ≤ 90 →
      (side = PIER_EAST ∨ DECm_set d ≤ 320400 ∨ 324000 ≤ DECm_set d) →
      ∃ cs t2, toStringDEC (DECm_set d) side = some cs ∧
               parseStringDEC cs side = some t2 ∧
               |DEC_degrees_to (DECm_set d) t2| < DEC_GRANULARITY := by
  intro d side hd0 hd1 hside
  have hrange := DECm_set_range d hd0 hd1
  have h0 : 0 ≤ DECm_set d := by rcases hrange with ⟨h, _⟩ | ⟨h, _⟩ <;> omega
  have h1 : DECm_set d ≤ 921600 := by rcases hrange with ⟨_, h⟩ | ⟨_, h⟩ <;> omega
  have hEast : side = PIER_EAST → DECm_set d ≤ 324000 ∨ 327600 ≤ DECm_set d := by
    intro _
    rcases hrange with ⟨_, h⟩ | ⟨h, _⟩
    · exact Or.inl h
    · exact Or.inr (by omega)
  have hOther : side ≠ PIER_EAST → DECm_set d ≤ 320400 ∨ 324000 ≤ DECm_set d := by
    intro hne
    rcases hside with h | h | h
    · exact absurd h hne
    · exact Or.inl h
    · exact Or.inr h
  obtain ⟨cs, henc, hdec⟩ := dec_roundtrip_core (DECm_set d) side h0 h1 hEast hOther
  refine ⟨cs, DECm_set d, henc, hdec, ?_⟩
  rw [DEC_degrees_to, DEC_GRANULARITY_eq]
  norm_num

/-- Witness for `dec_roundtrip_amended` at `d = 45`, pier side EAST. -/
theorem dec_roundtrip_amended_witness :
    ∃ cs t2, toStringDEC (DECm_set 45) PIER_EAST = some cs ∧
             parseStringDEC cs PIER_EAST = some t2 ∧
             |DEC_degrees_to (DECm_set 45) t2| < DEC_GRANULARITY :=
  dec_roundtrip_amended 45 PIER_EAST (by decide) (by decide) (Or.inl rfl)

/-- Claim C2 counterexample: `d = 89.5`, pier side WEST.  The setter
stores 322200 ticks, the codec emits `"+00:30:00"`, and decoding returns
325800 ticks — one degree away, far beyond the 1-arcsecond granularity. -/
theorem dec_roundtrip_counterexample :
    DECm_set (179/2) = 322200 ∧
    toStringDEC 322200 PIER_WEST = some [43, 48, 48, 58, 51, 48, 58, 48, 48] ∧
    parseStringDEC [43, 48, 48, 58, 51, 48, 58, 48, 48] PIER_WEST = some 325800 ∧
    ¬ |DEC_degrees_to 322200 325800| < DEC_GRANULARITY := by
  refine ⟨?_, by decide, by decide, ?_⟩
  · norm_num [DECm_set, lround, ratFmod, ratTrunc]
  · rw [DEC_degrees_to, DEC_GRANULARITY_eq]
    norm_num

/-!
## Claim C3 — the extended DEC high-digit table
-/

/-- `toStringDEC` cannot fail: the degree figure is reduced modulo 256
before the range test, so the `|degrees| > 255` branch and the
`default:` branch of the high-digit switch are unreachable. -/
theorem toStringDEC_never_fails :
    ∀ (t : ℤ) (side : TelescopePierSide), (toStringDEC t side).isSome := by
  intro t side
  set v : ℤ := if side = PIER_EAST then 90 * 3600 - t else t - 90 * 3600 with hv
  have htb : -256 < (v.tdiv 3600).tmod 256 ∧ (v.tdiv 3600).tmod 256 < 256 := by
    rcases le_or_lt 0 (v.tdiv 3600) with h | h
    · have hnn := Int.tmod_nonneg (a := v.tdiv 3600) 256 h
      have hlt := Int.tmod_lt_of_pos (v.tdiv 3600) (by norm_num : (0:ℤ) < 256)
      omega
    · have h2 : (-(v.tdiv 3600)).tmod 256 = -((v.tdiv 3600).tmod 256) := neg_tmod' _ _
      have hnn := Int.tmod_nonneg (a := -(v.tdiv 3600)) 256 (by omega)
      have hlt := Int.tmod_lt_of_pos (-(v.tdiv 3600)) (by norm_num : (0:ℤ) < 256)
      omega
  simp only [toStringDEC, ← hv]
  rw [if_neg (by omega)]
  have h255 : ((v.tdiv 3600).tmod 256).natAbs ≤ 255 := by omega
  rw [decHighDigit_eq _ h255]
  simp

/-- Claim C3 (corrected): the extended character `'G'` is the high digit
of degree magnitudes 230..239 (tens-and-hundreds figure 23), not of
magnitude 23, which encodes as the plain pair `'2'`,`'3'`; magnitude 9
encodes as `'0'`,`'9'`; magnitude 0 as `'0'`,`'0'`.  Moreover no
coordinate at all makes the encoding fail: the degree figure is reduced
modulo 256 first, so the claimed `|degrees| > 255` failure (tens figure
above 25) is unreachable. -/
theorem dec_highdigit_amended :
    toStringDEC (90 * 3600 + 230 * 3600) PIER_WEST =
      some [43, 71, 48, 58, 48, 48, 58, 48, 48] ∧
    toStringDEC (90 * 3600 + 23 * 3600) PIER_WEST =
      some [43, 50, 51, 58, 48, 48, 58, 48, 48] ∧
    toStringDEC (90 * 3600 + 9 * 3600) PIER_WEST =
      some [43, 48, 57, 58, 48, 48, 58, 48, 48] ∧
    toStringDEC (90 * 3600) PIER_WEST = some [43, 48, 48, 58, 48, 48, 58, 48, 48] ∧
    (∀ (t : ℤ) (side : TelescopePierSide), (toStringDEC t side).isSome) :=
  ⟨by decide, by decide, by decide, by decide, toStringDEC_never_fails⟩

/-- Claim C3 counterexample: a coordinate whose degree magnitude is 23
encodes its tens position as `'2'` (byte 50), not `'G'` as claimed. -/
theorem dec_highdigit_counterexample :
    (toStringDEC (90 * 3600 + 23 * 3600) PIER_WEST).map (fun cs => cs.getD 1 0) = some 50 ∧
    (50 : ℤ) ≠ chr 'G' := by
  refine ⟨by decide, ?_⟩
  rw [chr_G]
  omega

/-!
## Claim C5 — parseStringRA acceptance
-/

/-- Modelled from the spec: the "exact two-digit `HH:MM:SS` triplet
pattern" that the spec says is the only accepted input shape. -/
def isExactTwoDigitTriplet (cs : List ℤ) : Bool :=
  match cs with
  | [h1, h2, c1, m1, m2, c2, s1, s2] =>
    decide ((48 ≤ h1 ∧ h1 ≤ 57) ∧ (48 ≤ h2 ∧ h2 ≤ 57) ∧ c1 = 58 ∧
            (48 ≤ m1 ∧ m1 ≤ 57) ∧ (48 ≤ m2 ∧ m2 ≤ 57) ∧ c2 = 58 ∧
            (48 ≤ s1 ∧ s1 ≤ 57) ∧ (48 ≤ s2 ∧ s2 ≤ 57))
  | _ => false

/-- Claim C5 (corrected): every exact two-digit `HH:MM:SS` triplet is
accepted by `parseStringRA`, which applies the 12-hour WEST offset and
normalizes modulo 24 hours — but acceptance is not limited to that
pattern (see the counterexample), because `sscanf` `%02d` fields also
accept one-digit numbers, signs and leading whitespace. -/
theorem parse_ra_amended :
    ∀ (a b d e g h : ℤ) (side : TelescopePierSide),
      48 ≤ a → a ≤ 57 → 48 ≤ b → b ≤ 57 → 48 ≤ d → d ≤ 57 → 48 ≤ e → e ≤ 57 →
      48 ≤ g → g ≤ 57 → 48 ≤ h → h ≤ 57 →
      isExactTwoDigitTriplet [a, b, 58, d, e, 58, g, h] = true ∧
      parseStringRA [a, b, 58, d, e, 58, g, h] side =
        some (((if side = PIER_WEST then (-12) * 3600 else 0) + 24 * 3600 +
               ((10 * (a - 48) + (b - 48)).tmod 24) * 3600 +
               (10 * (d - 48) + (e - 48)) * 60 + (10 * (g - 48) + (h - 48))).tmod (24 * 3600)) := by
  intro a b d e g h side ha ha' hb hb' hd hd' he he' hg hg' hh hh'
  constructor
  · simp only [isExactTwoDigitTriplet, decide_eq_true_eq]
    exact ⟨⟨ha, ha'⟩, ⟨hb, hb'⟩, trivial, ⟨hd, hd'⟩, ⟨he, he'⟩, trivial, ⟨hg, hg'⟩, ⟨hh, hh'⟩⟩
  · have hsa : isSpaceByte a = false := isSpaceByte_digit a ha
    have hsd : isSpaceByte d = false := isSpaceByte_digit d hd
    have hsg : isSpaceByte g = false := isSpaceByte_digit g hg
    have h1 : scanInt2 [a, b, 58, d, e, 58, g, h] =
        some (10 * (a - 48) + (b - 48), [58, d, e, 58, g, h]) := by
      simp only [scanInt2, List.dropWhile_cons, hsa, Bool.false_eq_true, if_false]
      rw [if_pos ⟨ha, ha'⟩, if_pos ⟨hb, hb'⟩]
    have h2 : scanInt2 [d, e, 58, g, h] = some (10 * (d - 48) + (e - 48), [58, g, h]) := by
      simp only [scanInt2, List.dropWhile_cons, hsd, Bool.false_eq_true, if_false]
      rw [if_pos ⟨hd, hd'⟩, if_pos ⟨he, he'⟩]
    have h3 : scanInt2 [g, h] = some (10 * (g - 48) + (h - 48), []) := by
      simp only [scanInt2, List.dropWhile_cons, hsg, Bool.false_eq_true, if_false]
      rw [if_pos ⟨hg, hg'⟩, if_pos ⟨hh, hh'⟩]
    simp only [parseStringRA, h1, h2, h3, chr_colon, eq_self_iff_true, if_true]

/-- Witness for `parse_ra_amended` on `"12:34:56"` with pier side WEST. -/
theorem parse_ra_amended_witness :
    isExactTwoDigitTriplet [49, 50, 58, 51, 52, 58, 53, 54] = true ∧
    parseStringRA [49, 50, 58, 51, 52, 58, 53, 54] PIER_WEST =
      some ((((if PIER_WEST = PIER_WEST then (-12) * 3600 else 0) + 24 * 3600 +
             (((10 * (49 - 48) + (50 - 48) : ℤ)).tmod 24) * 3600 +
             (10 * (51 - 48) + (52 - 48)) * 60 + (10 * (53 - 48) + (54 - 48)) : ℤ)).tmod (24 * 3600)) :=
  parse_ra_amended 49 50 51 52 53 54 PIER_WEST (by decide) (by decide) (by decide) (by decide)
    (by decide) (by decide) (by decide) (by decide) (by decide) (by decide) (by decide) (by decide)

/-- Claim C5 counterexample: `"1:2:3"` does not match the exact
two-digit triplet pattern, yet `parseStringRA` accepts it and updates
the coordinate (to 3723 ticks = 01:02:03). -/
theorem parse_ra_counterexample :
    isExactTwoDigitTriplet [49, 58, 50, 58, 51] = false ∧
    parseStringRA [49, 58, 50, 58, 51] PIER_EAST = some 3723 :=
  ⟨by decide, by decide⟩

/-!
## Claim C10 — UNKNOWN pier side mixes the conventions
-/

/-- Claim C10 (confirmed): with pier side UNKNOWN the RA codec behaves
exactly as EAST (no 12-hour offset either way), while the DEC codec
behaves exactly as WEST (orientation `+1` both ways), and encoding with
the unestablished pier side is not rejected. -/
theorem unknown_pier_side_conventions :
    (∀ t : ℤ, toStringRA t PIER_UNKNOWN = toStringRA t PIER_EAST) ∧
    (∀ cs : List ℤ, parseStringRA cs PIER_UNKNOWN = parseStringRA cs PIER_EAST) ∧
    (∀ t : ℤ, toStringDEC t PIER_UNKNOWN = toStringDEC t PIER_WEST) ∧
    (∀ cs : List ℤ, parseStringDEC cs PIER_UNKNOWN = parseStringDEC cs PIER_WEST) ∧
    (∀ t : ℤ, (toStringDEC t PIER_UNKNOWN).isSome) :=
  ⟨fun _ => rfl, fun _ => rfl, fun _ => rfl, fun _ => rfl,
   fun t => toStringDEC_never_fails t PIER_UNKNOWN⟩

/-!
## ConvergenceController groundwork
-/

theorem tierFor_some (x : ℚ) (h1 : x ≤ 360) : ∃ i, tierFor x = some i := by
  simp only [tierFor]
  split_ifs with h1 h2 h3 h4 h5
  · exact ⟨0, rfl⟩
  · exact ⟨1, rfl⟩
  · exact ⟨2, rfl⟩
  · exact ⟨3, rfl⟩
  · exact ⟨4, rfl⟩
  · refine absurd ?_ h5
    rw [adjustments_four]
    show x ≤ 360 * ONEDEGREE
    rw [ONEDEGREE]
    linarith

theorem adjustments_zero_eps : (adjustments 0).epsilon = 1/3600 := by
  rw [adjustments_zero]
  norm_num [ARCSECOND, ONEDEGREE]

/-- A tier above the first is only selected when the delta exceeds the
previous tier's distance, hence (table invariant) its own epsilon and
both granularities. -/
theorem tierFor_eps_lt (x : ℚ) (i : Fin 5) (h : tierFor x = some i) (hi : i ≠ 0) :
    (adjustments i).epsilon < x ∧ 15/3600 < x := by
  simp only [tierFor] at h
  split_ifs at h with h1 h2 h3 h4 h5
  · rw [Option.some.injEq] at h
    exact absurd h.symm hi
  · rw [Option.some.injEq] at h
    subst h
    push_neg at h1
    rw [adjustments_zero] at h1
    rw [adjustments_one]
    norm_num [ARCMINUTE, ONEDEGREE] at h1 ⊢
    all_goals (constructor <;> linarith)
  · rw [Option.some.injEq] at h
    subst h
    push_neg at h2
    rw [adjustments_one] at h2
    rw [adjustments_two]
    norm_num [ARCMINUTE, ONEDEGREE] at h2 ⊢
    all_goals (constructor <;> linarith)
  · rw [Option.some.injEq] at h
    subst h
    push_neg at h3
    rw [adjustments_two] at h3
    rw [adjustments_three]
    norm_num [ARCMINUTE, ONEDEGREE] at h3 ⊢
    all_goals (constructor <;> linarith)
  · rw [Option.some.injEq] at h
    subst h
    push_neg at h4
    rw [adjustments_three] at h4
    rw [adjustments_four]
    norm_num [ARCMINUTE, ONEDEGREE] at h4 ⊢
    all_goals (constructor <;> linarith)

theorem RA_GRANULARITY_pos : 0 < RA_GRANULARITY := by
  rw [RA_GRANULARITY_eq]; norm_num

theorem DEC_GRANULARITY_pos : 0 < DEC_GRANULARITY := by
  rw [DEC_GRANULARITY_eq]; norm_num

theorem axisMoves_not_both {eps delta : ℚ} (heps : 0 < eps) :
    ¬ (eps ≤ delta ∧ delta ≤ -eps) := by
  rintro ⟨h1, h2⟩
  linarith

/-- Starting from cleared movement markers, one axis pass raises exactly
the required markers and emits only the matching move commands. -/
theorem axisMoves_fresh (eps delta : ℚ) (qp qn mp mn : String) (heps : 0 < eps) :
    axisMoves eps delta false false qp qn mp mn =
      some (decide (eps ≤ delta), decide (delta ≤ -eps),
            (if eps ≤ delta then mp else "") ++ (if delta ≤ -eps then mn else "")) := by
  by_cases h1 : eps ≤ delta
  · have h2 : ¬ delta ≤ -eps := fun h => axisMoves_not_both heps ⟨h1, h⟩
    simp [axisMoves, h1, h2]
  · by_cases h2 : delta ≤ -eps <;> simp [axisMoves, h1, h2]

/-- When the movement markers already reflect the required directions,
one axis pass is a no-op emitting nothing. -/
theorem axisMoves_steady (eps delta : ℚ) (qp qn mp mn : String) (heps : 0 < eps) :
    axisMoves eps delta (decide (eps ≤ delta)) (decide (delta ≤ -eps)) qp qn mp mn =
      some (decide (eps ≤ delta), decide (delta ≤ -eps), "") := by
  by_cases h1 : eps ≤ delta
  · have h2 : ¬ delta ≤ -eps := fun h => axisMoves_not_both heps ⟨h1, h⟩
    simp [axisMoves, h1, h2]
  · by_cases h2 : delta ≤ -eps <;> simp [axisMoves, h1, h2]

/-- With a positive epsilon the axis pass never asserts, and it always
leaves the markers equal to the freshly computed requirements. -/
theorem axisMoves_flags (eps delta : ℚ) (f1 f2 : Bool) (qp qn mp mn : String) (heps : 0 < eps) :
    ∃ c, axisMoves eps delta f1 f2 qp qn mp mn =
      some (decide (eps ≤ delta), decide (delta ≤ -eps), c) := by
  by_cases h1 : eps ≤ delta
  · have h2 : ¬ delta ≤ -eps := fun h => axisMoves_not_both heps ⟨h1, h⟩
    cases f1 <;> cases f2
    · exact ⟨mp, by simp [axisMoves, h1, h2]⟩
    · exact ⟨qn ++ mp, by simp [axisMoves, h1, h2]⟩
    · exact ⟨"", by simp [axisMoves, h1, h2]⟩
    · exact ⟨qn, by simp [axisMoves, h1, h2]⟩
  · by_cases h2 : delta ≤ -eps
    · cases f1 <;> cases f2
      · exact ⟨mn, by simp [axisMoves, h1, h2]⟩
      · exact ⟨"", by simp [axisMoves, h1, h2]⟩
      · exact ⟨qp ++ mn, by simp [axisMoves, h1, h2]⟩
      · exact ⟨qp, by simp [axisMoves, h1, h2]⟩
    · cases f1 <;> cases f2
      · exact ⟨"", by simp [axisMoves, h1, h2]⟩
      · exact ⟨qn, by simp [axisMoves, h1, h2]⟩
      · exact ⟨qp, by simp [axisMoves, h1, h2]⟩
      · exact ⟨qp ++ qn, by simp [axisMoves, h1, h2]⟩

theorem slew_rate_length (j : Fin 5) : (adjustments j).slew_rate.length = 4 := by
  fin_cases j <;> rfl

theorem slew_rate_ne_empty (j : Fin 5) : (adjustments j).slew_rate ≠ "" := by
  intro h
  have := slew_rate_length j
  rw [h] at this
  exact absurd this (by decide)

theorem ne_stopall_of_length_mod4 (s : String) (h : s.length % 4 = 0) : s ≠ ":Q#" := by
  intro he
  rw [he] at h
  exact absurd h (by decide)

theorem length_mod4_ite (p : Prop) [Decidable p] (mp : String) (h : mp.length = 4) :
    (if p then mp else "").length % 4 = 0 := by
  split_ifs
  · omega
  · decide

/-- The state the controller reaches after the first slewing tick under
constant deltas and keeps (except for the countdown) on every later
tick: markers match the required directions of the driving tier, the
previous adjustment is recorded, and the poll interval is the tier's. -/
def slewSteadyState (rd dd : ℚ) (ri di : Fin 5) (c : ℤ) : ScopeState :=
  let ai := if ri < di then di else ri
  { trackState := TrackStateT.SCOPE_SLEWING, countdown := c,
    east := if ai = ri then decide (max (adjustments ai).epsilon RA_GRANULARITY ≤ rd) else false,
    west := if ai = ri then decide (rd ≤ -(max (adjustments ai).epsilon RA_GRANULARITY)) else false,
    north := if ai = di then decide (dd ≤ -(max (adjustments ai).epsilon DEC_GRANULARITY)) else false,
    south := if ai = di then decide (max (adjustments ai).epsilon DEC_GRANULARITY ≤ dd) else false,
    previous_adjustment := some ai,
    pollms := (adjustments ai).polling_interval }

/-- Whenever a tick adjusts (some delta at or above its granularity),
the driving tier requires a movement on at least one axis: the selected
tier's effective epsilon never exceeds the delta that selected it. -/
theorem steady_flag_prop (rd dd : ℚ) (ri di ai : Fin 5)
    (hai : ai = if ri < di then di else ri)
    (htr : tierFor |rd| = some ri) (htd : tierFor |dd| = some di)
    (hg : RA_GRANULARITY ≤ |rd| ∨ DEC_GRANULARITY ≤ |dd|) :
    (ai = ri ∧ (max (adjustments ai).epsilon RA_GRANULARITY ≤ rd ∨
                rd ≤ -(max (adjustments ai).epsilon RA_GRANULARITY))) ∨
    (ai = di ∧ (max (adjustments ai).epsilon DEC_GRANULARITY ≤ dd ∨
                dd ≤ -(max (adjustments ai).epsilon DEC_GRANULARITY))) := by
  by_cases hlt : ri < di
  · right
    have haid : ai = di := by rw [hai, if_pos hlt]
    refine ⟨haid, ?_⟩
    have hdi0 : di ≠ 0 := by
      intro h
      rw [h] at hlt
      exact absurd hlt (Fin.not_lt_zero ri)
    obtain ⟨he, hg15⟩ := tierFor_eps_lt _ _ htd hdi0
    have heps : max (adjustments ai).epsilon DEC_GRANULARITY ≤ |dd| := by
      rw [haid]
      apply max_le (le_of_lt he)
      rw [DEC_GRANULARITY_eq]
      linarith
    rcases abs_cases dd with ⟨ha, _⟩ | ⟨ha, _⟩
    · exact Or.inl (by linarith)
    · exact Or.inr (by linarith)
  · have hair : ai = ri := by rw [hai, if_neg hlt]
    by_cases hri0 : ri = 0
    · have hdi : di = 0 := by
        have hle : di ≤ ri := not_lt.mp hlt
        rw [hri0] at hle
        exact Fin.le_zero_iff.mp hle
      rcases hg with hgr | hgd
      · left
        refine ⟨hair, ?_⟩
        have heps : max (adjustments ai).epsilon RA_GRANULARITY ≤ |rd| := by
          rw [hair, hri0, adjustments_zero_eps, RA_GRANULARITY_eq]
          rw [max_eq_right (by norm_num : (1:ℚ)/3600 ≤ 15/3600)]
          rw [RA_GRANULARITY_eq] at hgr
          exact hgr
        rcases abs_cases rd with ⟨ha, _⟩ | ⟨ha, _⟩
        · exact Or.inl (by linarith)
        · exact Or.inr (by linarith)
      · right
        refine ⟨by rw [hair, hri0, hdi], ?_⟩
        have heps : max (adjustments ai).epsilon DEC_GRANULARITY ≤ |dd| := by
          rw [hair, hri0, adjustments_zero_eps, DEC_GRANULARITY_eq, max_self]
          rw [DEC_GRANULARITY_eq] at hgd
          exact hgd
        rcases abs_cases dd with ⟨ha, _⟩ | ⟨ha, _⟩
        · exact Or.inl (by linarith)
        · exact Or.inr (by linarith)
    · left
      refine ⟨hair, ?_⟩
      obtain ⟨he, hg15⟩ := tierFor_eps_lt _ _ htr hri0
      have heps : max (adjustments ai).epsilon RA_GRANULARITY ≤ |rd| := by
        rw [hair]
        apply max_le (le_of_lt he)
        rw [RA_GRANULARITY_eq]
        linarith
      rcases abs_cases rd with ⟨ha, _⟩ | ⟨ha, _⟩
      · exact Or.inl (by linarith)
      · exact Or.inr (by linarith)

/-- One slewing tick from the steady state: nothing is sent and the
countdown decrements, until it crosses zero, at which point the tick
stops everything (`":Q#"`), leaves `SCOPE_SLEWING` and reports the
convergence failure. -/
theorem tick_from_steady (rd dd : ℚ) (ri di : Fin 5) (c : ℤ)
    (htr : tierFor |rd| = some ri) (htd : tierFor |dd| = some di)
    (hg : RA_GRANULARITY ≤ |rd| ∨ DEC_GRANULARITY ≤ |dd|) :
    readScopeStatusTick (slewSteadyState rd dd ri di c) rd dd =
      if c - 1 ≤ 0 then
        some ({ slewSteadyState rd dd ri di c with
                countdown := c - 1, trackState := TrackStateT.SCOPE_TRACKING, pollms := 1000 },
              [":Q#"], TickOutcome.convergenceFailed)
      else
        some (slewSteadyState rd dd ri di (c - 1), [], TickOutcome.adjusting) := by
  by_cases hlt : ri < di
  · -- driving tier is the DEC tier; the RA branch is inactive
    have hne : di ≠ ri := ne_of_gt hlt
    have hflag := steady_flag_prop rd dd ri di di (if_pos hlt).symm htr htd hg
    have hdeceps : 0 < max (adjustments di).epsilon DEC_GRANULARITY :=
      lt_max_iff.2 (Or.inr DEC_GRANULARITY_pos)
    rcases hflag with ⟨hdiri, _⟩ | ⟨_, hor⟩
    · exact absurd hdiri hne
    simp only [readScopeStatusTick, slewSteadyState, if_pos hlt, if_neg hne, hg, if_true,
      htr, htd, ne_eq, not_true_eq_false, if_false, eq_self_iff_true,
      not_true, false_and, and_false]
    rw [axisMoves_steady (max (adjustments di).epsilon DEC_GRANULARITY) dd
      ":Qs#" ":Qn#" ":Ms#" ":Mn#" hdeceps]
    simp only [ltPrev, decide_eq_true_eq]
    rw [if_neg (by
      rintro (⟨h1, _⟩ | ⟨hn, hs⟩)
      · simp at h1
      · exact axisMoves_not_both hdeceps ⟨hs, hn⟩)]
    rw [if_neg (by
      rintro ⟨_, _, hn, hs⟩
      rcases hor with h | h
      · simp [h] at hs
      · simp [h] at hn)]
    simp only [String.empty_append, String.append_empty, ne_eq, not_true_eq_false, if_false,
      not_false_eq_true, if_true]
    split_ifs with hc
    · rfl
    · rfl
  · have hair : (if ri < di then di else ri) = ri := if_neg hlt
    have hraeps : 0 < max (adjustments ri).epsilon RA_GRANULARITY :=
      lt_max_iff.2 (Or.inr RA_GRANULARITY_pos)
    have hflag := steady_flag_prop rd dd ri di ri hair.symm htr htd hg
    by_cases hde : ri = di
    · -- both axes share the driving tier
      subst hde
      have hdeceps : 0 < max (adjustments ri).epsilon DEC_GRANULARITY :=
        lt_max_iff.2 (Or.inr DEC_GRANULARITY_pos)
      have hor : (max (adjustments ri).epsilon RA_GRANULARITY ≤ rd ∨
                  rd ≤ -(max (adjustments ri).epsilon RA_GRANULARITY)) ∨
                 (max (adjustments ri).epsilon DEC_GRANULARITY ≤ dd ∨
                  dd ≤ -(max (adjustments ri).epsilon DEC_GRANULARITY)) := by
        rcases hflag with ⟨_, h⟩ | ⟨_, h⟩
        · exact Or.inl h
        · exact Or.inr h
      simp only [readScopeStatusTick, slewSteadyState, if_neg hlt, hg, if_true,
        htr, htd, ne_eq, not_true_eq_false, if_false, eq_self_iff_true,
        not_true, false_and, and_false]
      rw [axisMoves_steady (max (adjustments ri).epsilon RA_GRANULARITY) rd
        ":Qe#" ":Qw#" ":Me#" ":Mw#" hraeps]
      rw [axisMoves_steady (max (adjustments ri).epsilon DEC_GRANULARITY) dd
        ":Qs#" ":Qn#" ":Ms#" ":Mn#" hdeceps]
      simp only [ltPrev, decide_eq_true_eq]
      rw [if_neg (by
        rintro (⟨he, hw⟩ | ⟨hn, hs⟩)
        · exact axisMoves_not_both hraeps ⟨he, hw⟩
        · exact axisMoves_not_both hdeceps ⟨hs, hn⟩)]
      rw [if_neg (by
        rintro ⟨he, hw, hn, hs⟩
        rcases hor with (h | h) | (h | h)
        · simp [h] at he
        · simp [h] at hw
        · simp [h] at hs
        · simp [h] at hn)]
      simp only [String.empty_append, String.append_empty, ne_eq, not_true_eq_false, if_false,
        not_false_eq_true, if_true]
      split_ifs with hc
      · rfl
      · rfl
    · -- the RA tier drives alone
      have hflagRA : max (adjustments ri).epsilon RA_GRANULARITY ≤ rd ∨
          rd ≤ -(max (adjustments ri).epsilon RA_GRANULARITY) := by
        rcases hflag with ⟨_, h⟩ | ⟨hrd, _⟩
        · exact h
        · exact absurd hrd hde
      simp only [readScopeStatusTick, slewSteadyState, if_neg hlt, if_neg hde, hg, if_true,
        htr, htd, ne_eq, not_true_eq_false, if_false, eq_self_iff_true,
        not_true, false_and, and_false]
      rw [axisMoves_steady (max (adjustments ri).epsilon RA_GRANULARITY) rd
        ":Qe#" ":Qw#" ":Me#" ":Mw#" hraeps]
      simp only [ltPrev, decide_eq_true_eq]
      rw [if_neg (by
        rintro (⟨he, hw⟩ | ⟨hn, hs⟩)
        · exact axisMoves_not_both hraeps ⟨he, hw⟩
        · simp at hn)]
      rw [if_neg (by
        rintro ⟨he, hw, _, _⟩
        rcases hflagRA with h | h
        · simp [h] at he
        · simp [h] at hw)]
      simp only [String.empty_append, String.append_empty, ne_eq, not_true_eq_false, if_false,
        not_false_eq_true, if_true]
      split_ifs with hc
      · rfl
      · rfl

theorem countStopAll_mod4 (s : String) (h : s.length % 4 = 0) : countStopAll [s] = 0 := by
  have hne := ne_stopall_of_length_mod4 s h
  simp [countStopAll, hne]

theorem slewrate_append_ne_empty (j : Fin 5) (s : String) :
    (adjustments j).slew_rate ++ s ≠ "" := by
  intro h
  have hl := congrArg String.length h
  rw [String.length_append, slew_rate_length j] at hl
  simp at hl

theorem slewrate_append2_ne_empty (j : Fin 5) (s1 s2 : String) :
    (adjustments j).slew_rate ++ s1 ++ s2 ≠ "" := by
  intro h
  have hl := congrArg String.length h
  rw [String.length_append, String.length_append, slew_rate_length j] at hl
  simp at hl

/-- The first slewing tick after `Goto`: the slew rate of the driving
tier and the needed move commands go out as one batch (which is not the
stop-all command), the movement markers latch the required directions,
and the countdown drops to 143. -/
theorem tick_fresh (rd dd : ℚ) (ri di : Fin 5)
    (htr : tierFor |rd| = some ri) (htd : tierFor |dd| = some di)
    (hg : RA_GRANULARITY ≤ |rd| ∨ DEC_GRANULARITY ≤ |dd|) :
    ∃ c1 : String,
      readScopeStatusTick (gotoStart initialScopeState) rd dd =
        some (slewSteadyState rd dd ri di (MAX_CONVERGENCE_LOOPS - 1), [c1],
              TickOutcome.adjusting) ∧ countStopAll [c1] = 0 := by
  have hcd : ¬((MAX_CONVERGENCE_LOOPS : ℤ) - 1 ≤ 0) := by norm_num [MAX_CONVERGENCE_LOOPS]
  by_cases hlt : ri < di
  · -- driving tier is the DEC tier; the RA branch is inactive
    have hne : di ≠ ri := ne_of_gt hlt
    have hflag := steady_flag_prop rd dd ri di di (if_pos hlt).symm htr htd hg
    have hdeceps : 0 < max (adjustments di).epsilon DEC_GRANULARITY :=
      lt_max_iff.2 (Or.inr DEC_GRANULARITY_pos)
    rcases hflag with ⟨hdiri, _⟩ | ⟨_, hor⟩
    · exact absurd hdiri hne
    have hmod : ((if max (adjustments di).epsilon DEC_GRANULARITY ≤ dd then ":Ms#" else "") ++
        (if dd ≤ -(max (adjustments di).epsilon DEC_GRANULARITY) then ":Mn#" else "")).length
        % 4 = 0 := by
      rw [String.length_append]
      have h1 := length_mod4_ite (max (adjustments di).epsilon DEC_GRANULARITY ≤ dd) ":Ms#" rfl
      have h2 := length_mod4_ite (dd ≤ -(max (adjustments di).epsilon DEC_GRANULARITY)) ":Mn#" rfl
      omega
    simp only [readScopeStatusTick, gotoStart, initialScopeState, slewSteadyState,
      if_pos hlt, if_neg hne, hg, if_true, htr, htd, ne_eq, reduceCtorEq,
      not_false_eq_true, ltPrev, Bool.false_eq_true, true_and, if_false, false_or,
      eq_self_iff_true, not_true_eq_false, false_and, and_false,
      String.empty_append, String.append_empty]
    rw [axisMoves_fresh (max (adjustments di).epsilon DEC_GRANULARITY) dd
      ":Qs#" ":Qn#" ":Ms#" ":Mn#" hdeceps]
    simp only [decide_eq_true_eq, String.empty_append, String.append_empty]
    rw [if_neg (by
      rintro ⟨hn, hs⟩
      exact axisMoves_not_both hdeceps ⟨hs, hn⟩)]
    rw [if_neg (by
      rintro ⟨hn, hs⟩
      rcases hor with h | h
      · simp [h] at hs
      · simp [h] at hn)]
    rw [if_pos (slewrate_append_ne_empty di _), if_neg hcd]
    refine ⟨_, rfl, ?_⟩
    apply countStopAll_mod4
    rw [String.length_append, slew_rate_length di]
    omega
  · have hair : (if ri < di then di else ri) = ri := if_neg hlt
    have hraeps : 0 < max (adjustments ri).epsilon RA_GRANULARITY :=
      lt_max_iff.2 (Or.inr RA_GRANULARITY_pos)
    have hflag := steady_flag_prop rd dd ri di ri hair.symm htr htd hg
    have hmodRA : ((if max (adjustments ri).epsilon RA_GRANULARITY ≤ rd then ":Me#" else "") ++
        (if rd ≤ -(max (adjustments ri).epsilon RA_GRANULARITY) then ":Mw#" else "")).length
        % 4 = 0 := by
      rw [String.length_append]
      have h1 := length_mod4_ite (max (adjustments ri).epsilon RA_GRANULARITY ≤ rd) ":Me#" rfl
      have h2 := length_mod4_ite (rd ≤ -(max (adjustments ri).epsilon RA_GRANULARITY)) ":Mw#" rfl
      omega
    by_cases hde : ri = di
    · -- both axes share the driving tier
      subst hde
      have hdeceps : 0 < max (adjustments ri).epsilon DEC_GRANULARITY :=
        lt_max_iff.2 (Or.inr DEC_GRANULARITY_pos)
      have hor : (max (adjustments ri).epsilon RA_GRANULARITY ≤ rd ∨
                  rd ≤ -(max (adjustments ri).epsilon RA_GRANULARITY)) ∨
                 (max (adjustments ri).epsilon DEC_GRANULARITY ≤ dd ∨
                  dd ≤ -(max (adjustments ri).epsilon DEC_GRANULARITY)) := by
        rcases hflag with ⟨_, h⟩ | ⟨_, h⟩
        · exact Or.inl h
        · exact Or.inr h
      have hmodDEC : ((if max (adjustments ri).epsilon DEC_GRANULARITY ≤ dd then ":Ms#" else "") ++
          (if dd ≤ -(max (adjustments ri).epsilon DEC_GRANULARITY) then ":Mn#" else "")).length
          % 4 = 0 := by
        rw [String.length_append]
        have h1 := length_mod4_ite (max (adjustments ri).epsilon DEC_GRANULARITY ≤ dd) ":Ms#" rfl
        have h2 := length_mod4_ite (dd ≤ -(max (adjustments ri).epsilon DEC_GRANULARITY)) ":Mn#" rfl
        omega
      simp only [readScopeStatusTick, gotoStart, initialScopeState, slewSteadyState,
        if_neg hlt, hg, if_true, htr, htd, ne_eq, reduceCtorEq,
        not_false_eq_true, ltPrev, Bool.false_eq_true, true_and, if_false,
        eq_self_iff_true, not_true_eq_false, false_and, and_false,
        String.empty_append, String.append_empty]
      rw [axisMoves_fresh (max (adjustments ri).epsilon RA_GRANULARITY) rd
        ":Qe#" ":Qw#" ":Me#" ":Mw#" hraeps]
      rw [axisMoves_fresh (max (adjustments ri).epsilon DEC_GRANULARITY) dd
        ":Qs#" ":Qn#" ":Ms#" ":Mn#" hdeceps]
      simp only [decide_eq_true_eq, String.empty_append, String.append_empty]
      rw [if_neg (by
        rintro (⟨he, hw⟩ | ⟨hn, hs⟩)
        · exact axisMoves_not_both hraeps ⟨he, hw⟩
        · exact axisMoves_not_both hdeceps ⟨hs, hn⟩)]
      rw [if_neg (by
        rintro ⟨he, hw, hn, hs⟩
        rcases hor with (h | h) | (h | h)
        · simp [h] at he
        · simp [h] at hw
        · simp [h] at hs
        · simp [h] at hn)]
      rw [if_pos (slewrate_append2_ne_empty ri _ _), if_neg hcd]
      refine ⟨_, rfl, ?_⟩
      apply countStopAll_mod4
      rw [String.length_append, String.length_append, slew_rate_length ri]
      omega
    · -- the RA tier drives alone
      have hflagRA : max (adjustments ri).epsilon RA_GRANULARITY ≤ rd ∨
          rd ≤ -(max (adjustments ri).epsilon RA_GRANULARITY) := by
        rcases hflag with ⟨_, h⟩ | ⟨hrd, _⟩
        · exact h
        · exact absurd hrd hde
      simp only [readScopeStatusTick, gotoStart, initialScopeState, slewSteadyState,
        if_neg hlt, if_neg hde, hg, if_true, htr, htd, ne_eq, reduceCtorEq,
        not_false_eq_true, ltPrev, Bool.false_eq_true, true_and, if_false, or_false,
        eq_self_iff_true, not_true_eq_false, false_and, and_false,
        String.empty_append, String.append_empty]
      rw [axisMoves_fresh (max (adjustments ri).epsilon RA_GRANULARITY) rd
        ":Qe#" ":Qw#" ":Me#" ":Mw#" hraeps]
      simp only [decide_eq_true_eq, String.empty_append, String.append_empty]
      rw [if_neg (by
        rintro ⟨he, hw⟩
        exact axisMoves_not_both hraeps ⟨he, hw⟩)]
      rw [if_neg (by
        rintro ⟨he, hw, _, _⟩
        rcases hflagRA with h | h
        · simp [h] at he
        · simp [h] at hw)]
      rw [if_pos (slewrate_append_ne_empty ri _), if_neg hcd]
      refine ⟨_, rfl, ?_⟩
      apply countStopAll_mod4
      rw [String.length_append, slew_rate_length ri]
      omega

theorem runTicks_succ (rd dd : ℚ) (n : ℕ) (s s1 s2 : ScopeState) (cmds : List String)
    (o : TickOutcome) (k : ℕ)
    (h : readScopeStatusTick s rd dd = some (s1, cmds, o))
    (h2 : runTicks rd dd n s1 = some (s2, k)) :
    runTicks rd dd (n + 1) s = some (s2, countStopAll cmds + k) := by
  simp only [runTicks, h, h2]

theorem runTicks_add (rd dd : ℚ) (m n : ℕ) (s s1 s2 : ScopeState) (k1 k2 : ℕ)
    (h1 : runTicks rd dd m s = some (s1, k1))
    (h2 : runTicks rd dd n s1 = some (s2, k2)) :
    runTicks rd dd (m + n) s = some (s2, k1 + k2) := by
  induction m generalizing s k1 with
  | zero =>
    simp only [runTicks, Option.some.injEq, Prod.mk.injEq] at h1
    obtain ⟨rfl, rfl⟩ := h1
    simpa using h2
  | succ p ih =>
    rw [Nat.succ_add]
    simp only [runTicks] at h1
    cases hstep : readScopeStatusTick s rd dd with
    | none => rw [hstep] at h1; cases h1
    | some t =>
      obtain ⟨sa, cmds, o⟩ := t
      simp only [hstep] at h1
      cases hrun : runTicks rd dd p sa with
      | none => simp only [hrun] at h1; cases h1
      | some u =>
        obtain ⟨sb, kb⟩ := u
        simp only [hrun] at h1
        simp only [Option.some.injEq, Prod.mk.injEq] at h1
        obtain ⟨rfl, rfl⟩ := h1
        have hmid := ih sa kb hrun
        have := runTicks_succ rd dd (p + n) s sa s2 cmds o (kb + k2) hstep hmid
        rw [this, Nat.add_assoc]

/-- Running `k` steady ticks just counts the countdown from `c` down to
`c - k`, emitting nothing, as long as the countdown stays positive. -/
theorem runTicks_steady (rd dd : ℚ) (ri di : Fin 5)
    (htr : tierFor |rd| = some ri) (htd : tierFor |dd| = some di)
    (hg : RA_GRANULARITY ≤ |rd| ∨ DEC_GRANULARITY ≤ |dd|) :
    ∀ (k : ℕ) (c : ℤ), (k : ℤ) < c →
    runTicks rd dd k (slewSteadyState rd dd ri di c) =
      some (slewSteadyState rd dd ri di (c - k), 0) := by
  intro k
  induction k with
  | zero => intro c _; simp [runTicks]
  | succ m ih =>
    intro c hc
    have hstep := tick_from_steady rd dd ri di c htr htd hg
    rw [if_neg (by push_cast at hc; omega : ¬ (c - 1 ≤ 0))] at hstep
    have hmid := ih (c - 1) (by push_cast at hc ⊢; omega)
    have := runTicks_succ rd dd m _ _ _ [] TickOutcome.adjusting 0 hstep hmid
    rw [this]
    have hcc : c - 1 - (m : ℤ) = c - ((m : ℕ) + 1 : ℕ) := by push_cast; ring
    rw [hcc]
    rfl

set_option maxHeartbeats 2000000 in
/-- Whatever the state, a tick that ends up adjusting has decremented the
countdown, either from its previous value or from a fresh re-arm at
`MAX_CONVERGENCE_LOOPS` (line 303 re-arms when the tier climbs). -/
theorem adjusting_tick_countdown (rd dd : ℚ) (s s' : ScopeState) (cmds : List String)
    (hstep : readScopeStatusTick s rd dd = some (s', cmds, TickOutcome.adjusting)) :
    s'.countdown = s.countdown - 1 ∨ s'.countdown = MAX_CONVERGENCE_LOOPS - 1 := by
  simp only [readScopeStatusTick] at hstep
  repeat' split at hstep
  all_goals simp only [Option.some.injEq, Prod.mk.injEq, reduceCtorEq, and_false,
    false_and] at hstep
  all_goals obtain ⟨h1, -, -⟩ := hstep
  all_goals rw [← h1]
  all_goals first | (left; rfl) | (right; rfl)

/-- C8: `Goto` arms the countdown at 144 and enters `SCOPE_SLEWING`; every
tick that keeps adjusting has decremented the countdown (possibly after a
re-arm at 144 when the tier climbs); and holding the deltas constant at or
above the granularity for 144 consecutive ticks drives the controller from
`SCOPE_SLEWING` to the convergence failure, which leaves the slewing state
and emits the stop-all command exactly once over the whole run, at the
failing 144th tick. -/
theorem convergence_timeout (rd dd : ℚ) (ri di : Fin 5) (s s' : ScopeState)
    (cmds : List String)
    (htr : tierFor |rd| = some ri) (htd : tierFor |dd| = some di)
    (hg : RA_GRANULARITY ≤ |rd| ∨ DEC_GRANULARITY ≤ |dd|)
    (hstep : readScopeStatusTick s rd dd = some (s', cmds, TickOutcome.adjusting)) :
    ((gotoStart s).countdown = 144 ∧ (gotoStart s).trackState = TrackStateT.SCOPE_SLEWING) ∧
    (s'.countdown = s.countdown - 1 ∨ s'.countdown = MAX_CONVERGENCE_LOOPS - 1) ∧
    (∃ s143 sF : ScopeState,
       runTicks rd dd 143 (gotoStart initialScopeState) = some (s143, 0) ∧
       readScopeStatusTick s143 rd dd = some (sF, [":Q#"], TickOutcome.convergenceFailed) ∧
       runTicks rd dd 144 (gotoStart initialScopeState) = some (sF, 1) ∧
       sF.trackState = TrackStateT.SCOPE_TRACKING ∧ sF.countdown = 0) := by
  refine ⟨⟨rfl, rfl⟩, adjusting_tick_countdown rd dd s s' cmds hstep, ?_⟩
  obtain ⟨c1, hfresh, hc1⟩ := tick_fresh rd dd ri di htr htd hg
  have hM : (MAX_CONVERGENCE_LOOPS : ℤ) - 1 = 143 := by norm_num [MAX_CONVERGENCE_LOOPS]
  rw [hM] at hfresh
  have h1 : runTicks rd dd 1 (gotoStart initialScopeState) =
      some (slewSteadyState rd dd ri di 143, 0) := by
    have := runTicks_succ rd dd 0 (gotoStart initialScopeState)
      (slewSteadyState rd dd ri di 143) (slewSteadyState rd dd ri di 143) [c1]
      TickOutcome.adjusting 0 hfresh rfl
    rw [this, hc1]
  have h2 := runTicks_steady rd dd ri di htr htd hg 142 143 (by norm_num)
  have h143 : (143 : ℤ) - ((142 : ℕ) : ℤ) = 1 := by norm_num
  rw [h143] at h2
  have h3 := runTicks_add rd dd 1 142 _ _ _ 0 0 h1 h2
  norm_num at h3
  have h4 := tick_from_steady rd dd ri di 1 htr htd hg
  rw [if_pos (by norm_num)] at h4
  have h10 : (1 : ℤ) - 1 = 0 := by norm_num
  rw [h10] at h4
  have h5 := runTicks_succ rd dd 0 (slewSteadyState rd dd ri di 1) _ _ [":Q#"]
    TickOutcome.convergenceFailed 0 h4 rfl
  have hqc : countStopAll [":Q#"] + 0 = 1 := rfl
  rw [hqc] at h5
  have h6 := runTicks_add rd dd 143 1 _ _ _ 0 1 h3 h5
  norm_num at h6
  exact ⟨_, _, h3, h4, h6, rfl, rfl⟩

theorem convergence_timeout_witness :
    ((gotoStart (slewSteadyState 2 0 2 0 5)).countdown = 144 ∧
     (gotoStart (slewSteadyState 2 0 2 0 5)).trackState = TrackStateT.SCOPE_SLEWING) ∧
    ((slewSteadyState 2 0 2 0 4).countdown = (slewSteadyState 2 0 2 0 5).countdown - 1 ∨
     (slewSteadyState 2 0 2 0 4).countdown = MAX_CONVERGENCE_LOOPS - 1) ∧
    (∃ s143 sF : ScopeState,
       runTicks 2 0 143 (gotoStart initialScopeState) = some (s143, 0) ∧
       readScopeStatusTick s143 2 0 = some (sF, [":Q#"], TickOutcome.convergenceFailed) ∧
       runTicks 2 0 144 (gotoStart initialScopeState) = some (sF, 1) ∧
       sF.trackState = TrackStateT.SCOPE_TRACKING ∧ sF.countdown = 0) := by
  have htr : tierFor |(2 : ℚ)| = some 2 := by
    norm_num [tierFor, adjustments_zero, adjustments_one, adjustments_two,
      ARCMINUTE, ARCSECOND, ONEDEGREE]
  have htd : tierFor |(0 : ℚ)| = some 0 := by
    norm_num [tierFor, adjustments_zero, ARCMINUTE, ONEDEGREE]
  have hg : RA_GRANULARITY ≤ |(2 : ℚ)| ∨ DEC_GRANULARITY ≤ |(0 : ℚ)| := by
    left; rw [RA_GRANULARITY_eq]; norm_num
  have hstep : readScopeStatusTick (slewSteadyState 2 0 2 0 5) 2 0 =
      some (slewSteadyState 2 0 2 0 4, [], TickOutcome.adjusting) := by
    have h := tick_from_steady 2 0 2 0 5 htr htd hg
    rw [if_neg (by norm_num)] at h
    have h54 : (5 : ℤ) - 1 = 4 := by norm_num
    rw [h54] at h
    exact h
  exact convergence_timeout 2 0 2 0 (slewSteadyState 2 0 2 0 5) (slewSteadyState 2 0 2 0 4)
    [] htr htd hg hstep

/-- When the movement markers enter a tick mutually exclusive per axis,
the tick never asserts: it returns a state whose markers are again
mutually exclusive per axis. -/
theorem tick_exclusive_core (rd dd : ℚ) (s : ScopeState) (ri di : Fin 5)
    (htr : tierFor |rd| = some ri) (htd : tierFor |dd| = some di)
    (hew : ¬(s.east = true ∧ s.west = true)) (hns : ¬(s.north = true ∧ s.south = true)) :
    ∃ s' cmds o, readScopeStatusTick s rd dd = some (s', cmds, o) ∧
      ¬(s'.east = true ∧ s'.west = true) ∧ ¬(s'.north = true ∧ s'.south = true) := by
  by_cases hts : s.trackState = SCOPE_SLEWING
  case neg =>
    refine ⟨s, [], TickOutcome.notSlewing, ?_, hew, hns⟩
    simp only [readScopeStatusTick]
    rw [if_pos hts]
  case pos =>
    by_cases hgr : RA_GRANULARITY ≤ |rd| ∨ DEC_GRANULARITY ≤ |dd|
    case neg =>
      refine ⟨{ s with trackState := TrackStateT.SCOPE_TRACKING, pollms := 1000 },
        [":Q#:RG#"], TickOutcome.converged, ?_, hew, hns⟩
      simp only [readScopeStatusTick]
      rw [if_neg (by simp [hts]), if_neg hgr]
    case pos =>
      set ai : Fin 5 := if ri < di then di else ri with hai
      obtain ⟨east1, west1, cmdRA, hRA, hexRA⟩ :
          ∃ e w c, (if ai = ri then
              axisMoves (max (adjustments ai).epsilon RA_GRANULARITY) rd s.east s.west
                ":Qe#" ":Qw#" ":Me#" ":Mw#"
            else some (s.east, s.west, "")) = some (e, w, c) ∧
            ¬(e = true ∧ w = true) := by
        by_cases haiR : ai = ri
        · rw [if_pos haiR]
          have heps : 0 < max (adjustments ai).epsilon RA_GRANULARITY :=
            lt_max_iff.2 (Or.inr RA_GRANULARITY_pos)
          obtain ⟨c, hc⟩ := axisMoves_flags _ rd s.east s.west ":Qe#" ":Qw#" ":Me#" ":Mw#" heps
          refine ⟨_, _, c, hc, ?_⟩
          rintro ⟨h1, h2⟩
          exact axisMoves_not_both heps ⟨of_decide_eq_true h1, of_decide_eq_true h2⟩
        · rw [if_neg haiR]
          exact ⟨_, _, "", rfl, hew⟩
      obtain ⟨south1, north1, cmdDEC, hDEC, hexDEC⟩ :
          ∃ so no c, (if ai = di then
              axisMoves (max (adjustments ai).epsilon DEC_GRANULARITY) dd s.south s.north
                ":Qs#" ":Qn#" ":Ms#" ":Mn#"
            else some (s.south, s.north, "")) = some (so, no, c) ∧
            ¬(no = true ∧ so = true) := by
        by_cases haiD : ai = di
        · rw [if_pos haiD]
          have heps : 0 < max (adjustments ai).epsilon DEC_GRANULARITY :=
            lt_max_iff.2 (Or.inr DEC_GRANULARITY_pos)
          obtain ⟨c, hc⟩ := axisMoves_flags _ dd s.south s.north ":Qs#" ":Qn#" ":Ms#" ":Mn#" heps
          refine ⟨_, _, c, hc, ?_⟩
          rintro ⟨h1, h2⟩
          exact axisMoves_not_both heps ⟨of_decide_eq_true h2, of_decide_eq_true h1⟩
        · rw [if_neg haiD]
          exact ⟨_, _, "", rfl, hns⟩
      simp only [readScopeStatusTick, htr, htd]
      rw [if_neg (by simp [hts]), if_pos hgr]
      rw [← hai, hRA, hDEC]
      simp only [ltPrev]
      have hassert : ¬((east1 = true ∧ west1 = true) ∨ (north1 = true ∧ south1 = true)) := by
        rintro (⟨ha, hb⟩ | ⟨ha, hb⟩)
        · exact hexRA ⟨ha, hb⟩
        · exact hexDEC ⟨ha, hb⟩
      rw [if_neg hassert]
      split_ifs
      all_goals exact ⟨_, _, _, rfl, hexRA, hexDEC⟩

/-- C9: for every tier the effective epsilon (the tier's epsilon raised to
at least the positive axis granularity) makes the two direction
requirements of one axis mutually exclusive; and a tick entered with
per-axis mutually exclusive movement markers never asserts — it returns a
state whose markers are again mutually exclusive per axis. -/
theorem direction_exclusivity (rd dd : ℚ) (s : ScopeState) (ri di : Fin 5)
    (htr : tierFor |rd| = some ri) (htd : tierFor |dd| = some di)
    (hew : ¬(s.east = true ∧ s.west = true)) (hns : ¬(s.north = true ∧ s.south = true)) :
    (∀ (j : Fin 5) (delta : ℚ),
       ¬ (max (adjustments j).epsilon RA_GRANULARITY ≤ delta ∧
          delta ≤ -(max (adjustments j).epsilon RA_GRANULARITY)) ∧
       ¬ (max (adjustments j).epsilon DEC_GRANULARITY ≤ delta ∧
          delta ≤ -(max (adjustments j).epsilon DEC_GRANULARITY))) ∧
    (∃ s' cmds o, readScopeStatusTick s rd dd = some (s', cmds, o) ∧
       ¬(s'.east = true ∧ s'.west = true) ∧ ¬(s'.north = true ∧ s'.south = true)) := by
  refine ⟨fun j delta => ⟨?_, ?_⟩, tick_exclusive_core rd dd s ri di htr htd hew hns⟩
  · exact axisMoves_not_both (lt_max_iff.2 (Or.inr RA_GRANULARITY_pos))
  · exact axisMoves_not_both (lt_max_iff.2 (Or.inr DEC_GRANULARITY_pos))

theorem direction_exclusivity_witness :
    (∀ (j : Fin 5) (delta : ℚ),
       ¬ (max (adjustments j).epsilon RA_GRANULARITY ≤ delta ∧
          delta ≤ -(max (adjustments j).epsilon RA_GRANULARITY)) ∧
       ¬ (max (adjustments j).epsilon DEC_GRANULARITY ≤ delta ∧
          delta ≤ -(max (adjustments j).epsilon DEC_GRANULARITY))) ∧
    (∃ s' cmds o, readScopeStatusTick (gotoStart initialScopeState) 2 0 = some (s', cmds, o) ∧
       ¬(s'.east = true ∧ s'.west = true) ∧ ¬(s'.north = true ∧ s'.south = true)) := by
  have htr : tierFor |(2 : ℚ)| = some 2 := by
    norm_num [tierFor, adjustments_zero, adjustments_one, adjustments_two,
      ARCMINUTE, ARCSECOND, ONEDEGREE]
  have htd : tierFor |(0 : ℚ)| = some 0 := by
    norm_num [tierFor, adjustments_zero, ARCMINUTE, ONEDEGREE]
  exact direction_exclusivity 2 0 (gotoStart initialScopeState) 2 0 htr htd
    (by simp [gotoStart, initialScopeState]) (by simp [gotoStart, initialScopeState])

end EQ500X
